import Mathlib

/-!
Verification of the flight-booking backend (src/server.js) against its
natural-language specification.

The embedding is a shallow one: the SQLite database is a record of lists of
rows, each HTTP handler becomes a function from a database state (plus the
request payload) to a result paired with the new database state.  JavaScript
numbers that carry money or multipliers are modelled as rationals; SQLite
integer columns as Int; nullable columns as Option.  JavaScript truthiness
on strings (empty string and null are falsy) is modelled by `jsStr`, and the
numeric fallback `a || b` on prices (null and 0 are falsy) by `jsNumOr`.
Dates (both the SQL `date("now")` comparisons and the JS `Date` comparisons)
are modelled on a single Int timeline, which preserves their order structure.
Request field aliases (camelCase vs snake_case, the three passport-number
aliases) are collapsed to one canonical field, mirroring the boundary
normalization the request layer performs before the logic under test runs.
-/

namespace Vemb

instance {ε α : Type} [DecidableEq ε] [DecidableEq α] : DecidableEq (Except ε α) := fun x y =>
  match x, y with
  | .ok a, .ok b =>
    if h : a = b then isTrue (by rw [h]) else isFalse (by intro hc; cases hc; exact h rfl)
  | .error a, .error b =>
    if h : a = b then isTrue (by rw [h]) else isFalse (by intro hc; cases hc; exact h rfl)
  | .ok _, .error _ => isFalse (by intro hc; cases hc)
  | .error _, .ok _ => isFalse (by intro hc; cases hc)

/-- JS string truthiness: null / undefined / empty string are falsy. -/
def jsStr (a : Option String) : Option String :=
  match a with
  | some s => if s = "" then none else some s
  | none => none

/-- JS `a || b` on nullable numeric columns: null and 0 are falsy. -/
def jsNumOr (a b : Option ℚ) : Option ℚ :=
  match a with
  | some x => if x = 0 then b else some x
  | none => b

/-- JS arithmetic coercion of a nullable number: null behaves as 0. -/
def numVal (a : Option ℚ) : ℚ := a.getD 0

def strUpper (s : String) : String := s.map Char.toUpper

def strLower (s : String) : String := s.map Char.toLower

/-- Row of the `flights` table (columns not read or written by the booking,
payment-status and promotion logic - route, schedule, status - are omitted). -/
structure Flight where
  flight_id : Nat
  airline_code : String
  flight_number : String
  price_economy : Option ℚ
  price_premium_economy : Option ℚ
  price_business : Option ℚ
  price_first : Option ℚ
  seats_economy : Int
  seats_premium_economy : Int
  seats_business : Int
  seats_first : Int
  available_seats : Int
  deriving DecidableEq

/-- Row of the `bookings` table. -/
structure BookingRow where
  booking_id : String
  departure_flight_id : Nat
  return_flight_id : Option Nat
  contact_name : String
  email : String
  phone : String
  travel_class : Option String
  total_amount : ℚ
  booking_time : Int
  payment_status : String
  promo_code : Option String
  passengers_info : Option String
  is_round_trip : Int
  deriving DecidableEq

/-- Row of the `booking_details` table. -/
structure BookingDetail where
  booking_id : String
  full_name : String
  gender : String
  dob : Option Int
  passport_number : String
  passenger_type : String
  luggage_weight : Int
  insurance : Int
  meal : Int
  deriving DecidableEq

/-- Row of the `payments` table. -/
structure PaymentRow where
  booking_id : String
  method : String
  transaction_info : Option String
  deriving DecidableEq

/-- Row of the `promotions` table.  `valid_from` and `valid_to` are the date
columns on the shared Int timeline. -/
structure Promotion where
  promo_id : Nat
  code : String
  name : String
  discount_type : String
  discount_value : ℚ
  valid_from : Int
  valid_to : Int
  usage_limit : Int
  used_count : Int
  status : String
  deriving DecidableEq

/-- The whole SQLite database. -/
structure DB where
  flights : List Flight
  bookings : List BookingRow
  booking_details : List BookingDetail
  payments : List PaymentRow
  promotions : List Promotion
  deriving DecidableEq

/-- A passenger object of the request payload.  `ptype` models the request
field named `type`; `passengerType` the camelCase variant - both are kept
because the fare loop and the detail-insert loop consult them in different
orders.  `dob` is the epoch-ms value of the date-of-birth string. -/
structure Passenger where
  fullName : Option String
  gender : Option String
  dob : Option Int
  ptype : Option String
  passengerType : Option String
  idNumber : Option String
  deriving DecidableEq

structure CustomerInfo where
  fullName : String
  email : String
  phone : String
  seatClass : Option String
  deriving DecidableEq

structure Services where
  luggage : Bool
  insurance : Bool
  meal : Bool
  food : Bool
  deriving DecidableEq

/-- Flight reference of a request: either the numeric store id or the
composite display code (airline code concatenated with flight number). -/
inductive FlightRef
  | byId (id : Nat)
  | byCode (code : String)
  deriving DecidableEq

/-- The booking request payload after boundary normalization of the
camelCase / snake_case aliases. -/
structure BookingRequest where
  departureFlightId : Option FlightRef
  returnFlightId : Option FlightRef
  isRoundTrip : Bool
  customerInfo : Option CustomerInfo
  passengers : List Passenger
  selectedServices : Option Services
  promoCode : Option String
  totalAmount : Option ℚ
  passengerCounts : Option String
  paymentMethod : Option String
  transactionInfo : Option String
  deriving DecidableEq

/-- Flight lookup of the booking handler: a numeric reference is looked up by
`flight_id`; a non-numeric one by the concatenation `airline_code ||
flight_number`.  (The source also reruns the concatenation query for a numeric
reference that missed, but SQLite never equates that TEXT concatenation with an
INTEGER parameter, so that second query cannot match and is dropped here.) -/
def findFlight (db : DB) (r : FlightRef) : Option Flight :=
  match r with
  | .byId n => db.flights.find? (fun f => f.flight_id == n)
  | .byCode s => db.flights.find? (fun f => f.airline_code ++ f.flight_number == s)

/-- The seat column selected by the `switch (seatClass)` statements; the
default case falls through to economy. -/
def seatsOf (f : Flight) (cls : String) : Int :=
  if cls = "PREMIUM_ECONOMY" then f.seats_premium_economy
  else if cls = "BUSINESS" then f.seats_business
  else if cls = "FIRST" then f.seats_first
  else f.seats_economy

/-- The price column selected for a seat class, with the `|| price_economy`
fallback of the source for the premium classes. -/
def basePriceOf (f : Flight) (cls : String) : Option ℚ :=
  if cls = "PREMIUM_ECONOMY" then jsNumOr f.price_premium_economy f.price_economy
  else if cls = "BUSINESS" then jsNumOr f.price_business f.price_economy
  else if cls = "FIRST" then jsNumOr f.price_first f.price_economy
  else f.price_economy

/-- `customerInfo.seatClass || ECONOMY`. -/
def seatClassOf (ci : CustomerInfo) : String := (jsStr ci.seatClass).getD "ECONOMY"

/-- `getPriceMultiplierForPassengerType` of the source: lookup in the
multiplier map, `|| 1` on a miss. -/
def getPriceMultiplierForPassengerType (passengerType : String) : ℚ :=
  if passengerType = "ADULT" then 1
  else if passengerType = "CHILD" then 0.75
  else if passengerType = "INFANT" then 0.1
  else 1

/-- Milliseconds in the Julian year the source divides by. -/
def msPerYear : ℚ := 365.25 * 24 * 60 * 60 * 1000

/-- `determinePassengerTypeFromDOB`: missing date of birth defaults to ADULT,
otherwise the age in years at `now` decides the category.  (An unparsable
date string yields NaN ages in JS, whose comparisons are all false, landing in
the ADULT branch exactly like the missing-date case.) -/
def determinePassengerTypeFromDOB (now : Int) (dob : Option Int) : String :=
  match dob with
  | none => "ADULT"
  | some d =>
    let ageInYears : ℚ := ((now : ℚ) - (d : ℚ)) / msPerYear
    if ageInYears < 2 then "INFANT"
    else if ageInYears < 12 then "CHILD"
    else "ADULT"

/-- Passenger type computed in the fare loop:
`(passenger.passengerType || passenger.type ||
determinePassengerTypeFromDOB(passenger.dob) || ADULT).toUpperCase()`.
The final `|| ADULT` of the source is dead because
`determinePassengerTypeFromDOB` always returns a non-empty string. -/
def calcType (now : Int) (p : Passenger) : String :=
  strUpper (((jsStr p.passengerType).orElse (fun _ => jsStr p.ptype)).getD
    (determinePassengerTypeFromDOB now p.dob))

/-- One leg of the fare loop: accumulate `basePrice * multiplier` over the
passenger list (the return-leg loop reuses the type computed for each
passenger by the departure-leg loop, which is `calcType`). -/
def calcLegAmount (now : Int) (ps : List Passenger) (basePrice : ℚ) : ℚ :=
  ps.foldl (fun acc p => acc + basePrice * getPriceMultiplierForPassengerType (calcType now p)) 0

/-- The promo lookup of the booking handler:
`SELECT * FROM promotions WHERE code = ? AND used_count < usage_limit AND
valid_from <= date("now") AND valid_to >= date("now")`. -/
def findBookingPromo (db : DB) (now : Int) (c : String) : Option Promotion :=
  db.promotions.find? (fun q =>
    (q.code == c) && decide (q.used_count < q.usage_limit) &&
    decide (q.valid_from ≤ now) && decide (now ≤ q.valid_to))

/-- The discount computed from a found promo row: percent takes
`amount * value / 100`, fixed takes the raw value, any other kind leaves the
initial 0. -/
def discountOf (pr : Promotion) (amount : ℚ) : ℚ :=
  if pr.discount_type = "percent" then amount * (pr.discount_value / 100)
  else if pr.discount_type = "fixed" then pr.discount_value
  else 0

/-- `UPDATE promotions SET used_count = used_count + 1 WHERE promo_id = ?`. -/
def recordUsage (db : DB) (pid : Nat) : DB :=
  { db with promotions := db.promotions.map (fun q =>
      if q.promo_id = pid then { q with used_count := q.used_count + 1 } else q) }

/-- Add `delta` to the seat column of class `cls` and to `available_seats` of
one flight row; this is the body of every seat UPDATE of the source (with
`delta` negative for the reserve statements and positive for the release
statements). -/
def adjustSeats (f : Flight) (cls : String) (delta : Int) : Flight :=
  if cls = "PREMIUM_ECONOMY" then
    { f with seats_premium_economy := f.seats_premium_economy + delta,
             available_seats := f.available_seats + delta }
  else if cls = "BUSINESS" then
    { f with seats_business := f.seats_business + delta,
             available_seats := f.available_seats + delta }
  else if cls = "FIRST" then
    { f with seats_first := f.seats_first + delta,
             available_seats := f.available_seats + delta }
  else
    { f with seats_economy := f.seats_economy + delta,
             available_seats := f.available_seats + delta }

/-- `UPDATE flights SET <seat column> = <seat column> + delta,
available_seats = available_seats + delta WHERE flight_id = ?`.  The UPDATE is
unconditional: no `>= 0` guard appears in the source. -/
def updateSeats (db : DB) (fid : Nat) (cls : String) (delta : Int) : DB :=
  { db with flights := db.flights.map (fun f =>
      if f.flight_id = fid then adjustSeats f cls delta else f) }

/-- The aggregate-seats invariant of the data model: `available_seats`
equals the sum of the four per-class seat columns. -/
def aggInv (f : Flight) : Prop :=
  f.available_seats =
    f.seats_economy + f.seats_premium_economy + f.seats_business + f.seats_first

instance (f : Flight) : Decidable (aggInv f) :=
  inferInstanceAs (Decidable (f.available_seats =
    f.seats_economy + f.seats_premium_economy + f.seats_business + f.seats_first))

/-- The leg an insufficient-seats rejection is scoped to. -/
inductive Leg
  | dep
  | ret
  deriving DecidableEq

/-- The possible responses of `POST /api/bookings`.  `failedToCreate` is the
catch-all 500 response carrying the thrown message as its `details` field. -/
inductive BookingResult
  | missingInfo (missingFields : List String)
  | departureFlightNotFound
  | returnFlightNotFound
  | insufficientSeats (leg : Leg) (available requested : Int) (seatClass : String)
  | passengerDataMissing
  | failedToCreate (details : String)
  | created (bookingId : String) (totalAmount : ℚ)
  deriving DecidableEq

/-- The missing-fields list built at the top of the booking handler. -/
def missingFieldsOf (req : BookingRequest) : List String :=
  (if req.departureFlightId = none then ["departureFlightId"] else []) ++
  (if req.customerInfo = none then ["customerInfo"] else []) ++
  (if req.passengers = [] then ["passengers"] else [])

/-- Resolution of the return flight: only attempted when
`finalIsRoundTrip && finalReturnFlightId`; a round trip with no return
reference silently leaves the return flight null. -/
def resolveReturn (db : DB) (req : BookingRequest) : Except BookingResult (Option Flight) :=
  if req.isRoundTrip then
    match req.returnFlightId with
    | none => .ok none
    | some r =>
      match findFlight db r with
      | none => .error .returnFlightNotFound
      | some f => .ok (some f)
  else .ok none

/-- The return-leg availability check, guarded by
`finalIsRoundTrip && returnFlight`. -/
def checkReturnSeats (rt : Bool) (ret : Option Flight) (cls : String) (n : Int) :
    Option BookingResult :=
  if rt then
    match ret with
    | some rf =>
      if seatsOf rf cls < n then some (.insufficientSeats .ret (seatsOf rf cls) n cls)
      else none
    | none => none
  else none

/-- The pre-promo calculated amount of the booking handler: the departure-leg
fare-loop sum plus, on a round trip with a resolved return flight, the
return-leg fare-loop sum. -/
def calculatedAmountOf (now : Int) (req : BookingRequest) (dep : Flight)
    (ret : Option Flight) (cls : String) : ℚ :=
  let depAmount := calcLegAmount now req.passengers (numVal (basePriceOf dep cls))
  if req.isRoundTrip then
    match ret with
    | some rf => depAmount + calcLegAmount now req.passengers (numVal (basePriceOf rf cls))
    | none => depAmount
  else depAmount

/-- Total-amount computation of the booking handler.  A caller-supplied total
is used directly, bypassing the whole calculated branch (including the promo
lookup and the `used_count` increment, which only the calculated branch
performs).  Returns the amount before the final `Math.max(0, _)` clamp,
together with the database state (mutated only by the promo `used_count`
increment). -/
def computeAmount (db : DB) (now : Int) (req : BookingRequest) (dep : Flight)
    (ret : Option Flight) (cls : String) : ℚ × DB :=
  match req.totalAmount with
  | some t => (t, db)
  | none =>
    let calcAmount := calculatedAmountOf now req dep ret cls
    match jsStr req.promoCode with
    | none => (calcAmount, db)
    | some c =>
      match findBookingPromo db now c with
      | none => (calcAmount, db)
      | some pr => (calcAmount - discountOf pr calcAmount, recordUsage db pr.promo_id)

/-- The return-flight id stored on the booking header:
`finalIsRoundTrip ? returnFlight.flight_id : null`.  On a round trip whose
return flight is null this dereference throws a TypeError, caught by the
handler as a 500. -/
def headerReturnId (rt : Bool) (ret : Option Flight) : Except BookingResult (Option Nat) :=
  if rt then
    match ret with
    | some rf => .ok (some rf.flight_id)
    | none => .error (.failedToCreate "TypeError: Cannot read properties of null")
  else .ok none

/-- Passenger type computed in the detail-insert loop.  Unlike the fare loop
it consults `passenger.type` first (normalized case-insensitively with an
ADULT default), then `passenger.passengerType` uppercased, then the
`calculatedPassengerType` the fare loop stored on the object (present iff the
calculated-amount branch ran, i.e. no explicit total was supplied), and
finally the date of birth. -/
def detailTypeOf (now : Int) (explicitAmount : Bool) (p : Passenger) : String :=
  match jsStr p.ptype with
  | some t =>
    if strLower t = "adult" then "ADULT"
    else if strLower t = "child" then "CHILD"
    else if strLower t = "infant" then "INFANT"
    else "ADULT"
  | none =>
    match jsStr p.passengerType with
    | some t => strUpper t
    | none =>
      if explicitAmount then determinePassengerTypeFromDOB now p.dob
      else calcType now p

def svcFlag (svc : Option Services) (f : Services → Bool) : Bool :=
  match svc with
  | some s => f s
  | none => false

/-- The `booking_details` row inserted for one passenger. -/
def mkDetail (now : Int) (bid : String) (explicitAmount : Bool) (svc : Option Services)
    (p : Passenger) : BookingDetail :=
  { booking_id := bid,
    full_name := (jsStr p.fullName).getD "",
    gender := (jsStr p.gender).getD "UNKNOWN",
    dob := p.dob,
    passport_number := (jsStr p.idNumber).getD "UNKNOWN_ID",
    passenger_type := detailTypeOf now explicitAmount p,
    luggage_weight := if svcFlag svc (fun s => s.luggage) then 23 else 0,
    insurance := if svcFlag svc (fun s => s.insurance) then 1 else 0,
    meal := if svcFlag svc (fun s => s.meal || s.food) then 1 else 0 }

/-- The detail-insert loop.  A passenger without a truthy `fullName` aborts
with a 400 and NO rollback; a failing INSERT (`insertErr idx = some msg`)
deletes the booking header rows for this booking id and rethrows the message,
surfaced by the catch block as the 500 `failedToCreate` response. -/
def insertDetails (db : DB) (now : Int) (bid : String) (ps : List Passenger) (idx : Nat)
    (insertErr : Nat → Option String) (svc : Option Services) (explicitAmount : Bool) :
    Option BookingResult × DB :=
  match ps with
  | [] => (none, db)
  | p :: rest =>
    if jsStr p.fullName = none then (some .passengerDataMissing, db)
    else
      match insertErr idx with
      | some msg =>
        (some (.failedToCreate ("Failed to save passenger details: " ++ msg)),
         { db with bookings := db.bookings.filter (fun b => b.booking_id ≠ bid) })
      | none =>
        insertDetails
          { db with booking_details := db.booking_details ++ [mkDetail now bid explicitAmount svc p] }
          now bid rest (idx + 1) insertErr svc explicitAmount

/-- The payment INSERT: only when a truthy payment method was supplied;
anything other than `bank_transfer` or `momo` is coerced to `momo`. -/
def insertPayment (db : DB) (bid : String) (method : Option String)
    (txInfo : Option String) : DB :=
  match jsStr method with
  | none => db
  | some m =>
    { db with payments := db.payments ++
        [{ booking_id := bid,
           method := if m = "bank_transfer" ∨ m = "momo" then m else "momo",
           transaction_info := txInfo }] }

/-- The database state after the seat reservations: amount computation (with
its promo side effect on the promotions table), then the unconditional seat
decrement for the departure leg and, on a round trip with a resolved return
flight, for the return leg. -/
def reservedState (db : DB) (now : Int) (req : BookingRequest) (ci : CustomerInfo)
    (dep : Flight) (ret : Option Flight) : DB :=
  let cls := seatClassOf ci
  let n : Int := (req.passengers.length : Int)
  let db1 := (computeAmount db now req dep ret cls).2
  let db2 := updateSeats db1 dep.flight_id cls (-n)
  if req.isRoundTrip then
    match ret with
    | some rf => updateSeats db2 rf.flight_id cls (-n)
    | none => db2
  else db2

/-- The header row the booking INSERT writes. -/
def bookingRowOf (db : DB) (now : Int) (req : BookingRequest) (ci : CustomerInfo)
    (dep : Flight) (ret : Option Flight) (retId : Option Nat) (freshId : String) : BookingRow :=
  { booking_id := freshId,
    departure_flight_id := dep.flight_id,
    return_flight_id := retId,
    contact_name := ci.fullName,
    email := ci.email,
    phone := ci.phone,
    travel_class := some (seatClassOf ci),
    total_amount := max 0 (computeAmount db now req dep ret (seatClassOf ci)).1,
    booking_time := now,
    payment_status := "unpaid",
    promo_code := jsStr req.promoCode,
    passengers_info := req.passengerCounts,
    is_round_trip := if req.isRoundTrip then 1 else 0 }

/-- Stage of the booking handler after both availability checks have passed:
amount computation (with its promo side effect), the unconditional seat
decrements, then the header INSERT, the detail-insert loop with its
delete-on-failure compensation, and the optional payment INSERT.  `freshId`
is the unique id the retry loop around `generateBookingId` produced;
`insertErr` is the fault oracle for the detail INSERT statements. -/
def createBookingReserve (db : DB) (now : Int) (req : BookingRequest) (ci : CustomerInfo)
    (dep : Flight) (ret : Option Flight) (freshId : String)
    (insertErr : Nat → Option String) : BookingResult × DB :=
  let finalAmount := max 0 (computeAmount db now req dep ret (seatClassOf ci)).1
  let db3 := reservedState db now req ci dep ret
  match headerReturnId req.isRoundTrip ret with
  | .error e => (e, db3)
  | .ok retId =>
    let db4 := { db3 with bookings :=
      db3.bookings ++ [bookingRowOf db now req ci dep ret retId freshId] }
    match insertDetails db4 now freshId req.passengers 0 insertErr req.selectedServices
        (req.totalAmount = none) with
    | (some e, db5) => (e, db5)
    | (none, db5) =>
      (.created freshId finalAmount, insertPayment db5 freshId req.paymentMethod req.transactionInfo)

/-- Stage of the booking handler after request validation and flight
resolution: the departure-leg and return-leg availability checks, which
reject before any mutation, then `createBookingReserve`. -/
def createBookingChecked (db : DB) (now : Int) (req : BookingRequest) (ci : CustomerInfo)
    (dep : Flight) (ret : Option Flight) (freshId : String)
    (insertErr : Nat → Option String) : BookingResult × DB :=
  let cls := seatClassOf ci
  let n : Int := (req.passengers.length : Int)
  if seatsOf dep cls < n then
    (.insufficientSeats .dep (seatsOf dep cls) n cls, db)
  else
    match checkReturnSeats req.isRoundTrip ret cls n with
    | some e => (e, db)
    | none => createBookingReserve db now req ci dep ret freshId insertErr

/-- `POST /api/bookings`: request validation, flight resolution, then
`createBookingChecked`.  The two inner `missingInfo` branches are unreachable
because an empty missing-fields list forces both fields present. -/
def createBooking (db : DB) (now : Int) (req : BookingRequest) (freshId : String)
    (insertErr : Nat → Option String) : BookingResult × DB :=
  if missingFieldsOf req ≠ [] then (.missingInfo (missingFieldsOf req), db)
  else
    match req.departureFlightId, req.customerInfo with
    | none, _ => (.missingInfo (missingFieldsOf req), db)
    | _, none => (.missingInfo (missingFieldsOf req), db)
    | some depRef, some ci =>
      match findFlight db depRef with
      | none => (.departureFlightNotFound, db)
      | some dep =>
        match resolveReturn db req with
        | .error e => (e, db)
        | .ok ret => createBookingChecked db now req ci dep ret freshId insertErr

/-- The possible responses of `PATCH /api/bookings/:id/payment`. -/
inductive PaymentResult
  | statusRequired
  | bookingNotFound
  | updated
  deriving DecidableEq

/-- Promo stage of the payment-status handler: on a transition into `paid`
from a non-paid status with a promo code attached, increments the used count
of the promotion found by code (any validity state). -/
def promoStage (db : DB) (cur : BookingRow) (ps : String) : DB :=
  match jsStr cur.promo_code with
  | some c =>
    if ps = "paid" ∧ cur.payment_status ≠ "paid" then
      match db.promotions.find? (fun q => q.code == c) with
      | some pr => recordUsage db pr.promo_id
      | none => db
    else db
  | none => db

/-- Seat-restore stage of the payment-status handler: on a transition into
`cancelled` or `refunded` from `paid` or `unpaid`, adds the count of the
booking detail rows back to the class and aggregate seat columns of the
departure flight and, for a round trip, of the return flight. -/
def restoreStage (db1 : DB) (bookingId : String) (cur : BookingRow) (ps : String) : DB :=
  if (ps = "cancelled" ∨ ps = "refunded") ∧
     (cur.payment_status = "paid" ∨ cur.payment_status = "unpaid") then
    let cnt : Int :=
      ((db1.booking_details.filter (fun d => d.booking_id == bookingId)).length : Int)
    let cls := (jsStr cur.travel_class).getD "ECONOMY"
    let dbA := updateSeats db1 cur.departure_flight_id cls cnt
    if cur.is_round_trip = 1 then
      match cur.return_flight_id with
      | some rid => updateSeats dbA rid cls cnt
      | none => dbA
    else dbA
  else db1

/-- `PATCH /api/bookings/:id/payment`: looks the booking up; runs the promo
stage then the seat-restore stage; finally writes the new status, answering
not-found when the UPDATE matched no row. -/
def updatePaymentStatus (db : DB) (bookingId : String) (paymentStatus : Option String) :
    PaymentResult × DB :=
  match jsStr paymentStatus with
  | none => (.statusRequired, db)
  | some ps =>
    match db.bookings.find? (fun b => b.booking_id == bookingId) with
    | none => (.bookingNotFound, db)
    | some cur =>
      let db2 := restoreStage (promoStage db cur ps) bookingId cur ps
      let changes := (db2.bookings.filter (fun b => b.booking_id == bookingId)).length
      let db3 := { db2 with bookings := db2.bookings.map (fun b =>
        if b.booking_id = bookingId then { b with payment_status := ps } else b) }
      if changes = 0 then (.bookingNotFound, db3) else (.updated, db3)

/-- The possible responses of `POST /api/promotions/validate`.  The three 404
bodies of the source are distinct constructors; exhausted and inactive codes
fall into the same `invalidOrInactive` response as an absent code, because
the lookup query itself filters on `status != "inactive" AND used_count <
usage_limit`. -/
inductive ValidateResult
  | codeRequired
  | invalidOrInactive
  | notYetValid
  | expired
  | valid (discountType : String) (discountValue : ℚ)
  deriving DecidableEq

/-- `POST /api/promotions/validate`. -/
def validatePromoCode (db : DB) (now : Int) (code : Option String) : ValidateResult :=
  match jsStr code with
  | none => .codeRequired
  | some c =>
    match db.promotions.find? (fun q =>
        (q.code == c) && (q.status != "inactive") && decide (q.used_count < q.usage_limit)) with
    | none => .invalidOrInactive
    | some pr =>
      if now < pr.valid_from then .notYetValid
      else if pr.valid_to < now then .expired
      else .valid pr.discount_type pr.discount_value

/-! Concrete fixtures used by the witness theorems. -/

def wFlightDep : Flight :=
  { flight_id := 1, airline_code := "VN", flight_number := "100",
    price_economy := some 1000000, price_premium_economy := none,
    price_business := some 2500000, price_first := none,
    seats_economy := 3, seats_premium_economy := 5, seats_business := 2,
    seats_first := 0, available_seats := 10 }

def wFlightRet : Flight :=
  { flight_id := 2, airline_code := "VN", flight_number := "200",
    price_economy := some 900000, price_premium_economy := none,
    price_business := none, price_first := none,
    seats_economy := 7, seats_premium_economy := 0, seats_business := 1,
    seats_first := 0, available_seats := 8 }

def wCI : CustomerInfo :=
  { fullName := "Nguyen Van A", email := "a@example.com", phone := "0903",
    seatClass := some "ECONOMY" }

def wPass : Passenger :=
  { fullName := some "Nguyen Van A", gender := some "M", dob := none,
    ptype := some "adult", passengerType := none, idNumber := some "ID1" }

def wPassChild : Passenger :=
  { fullName := some "Nguyen Van B", gender := some "F", dob := none,
    ptype := none, passengerType := some "child", idNumber := some "ID2" }

def wPromo : Promotion :=
  { promo_id := 7, code := "SALE20", name := "Sale", discount_type := "percent",
    discount_value := 20, valid_from := 0, valid_to := 100,
    usage_limit := 10, used_count := 3, status := "active" }

def wDB : DB :=
  { flights := [wFlightDep, wFlightRet], bookings := [], booking_details := [],
    payments := [], promotions := [wPromo] }

def wReqBase : BookingRequest :=
  { departureFlightId := some (.byId 1), returnFlightId := none,
    isRoundTrip := false, customerInfo := some wCI,
    passengers := [wPass, wPassChild], selectedServices := none,
    promoCode := none, totalAmount := none, passengerCounts := none,
    paymentMethod := none, transactionInfo := none }

/-- Fixture for C2: a flight with a single economy seat. -/
def c2Flight : Flight :=
  { flight_id := 9, airline_code := "VN", flight_number := "900",
    price_economy := some 500000, price_premium_economy := none, price_business := none,
    price_first := none, seats_economy := 1, seats_premium_economy := 0, seats_business := 0,
    seats_first := 0, available_seats := 1 }

def c2DB : DB :=
  { flights := [c2Flight], bookings := [], booking_details := [], payments := [],
    promotions := [] }

/-- Fixture for C2: a round trip whose return flight is the departure flight
itself, one passenger, explicit total. -/
def c2Req : BookingRequest :=
  { departureFlightId := some (.byId 9), returnFlightId := some (.byId 9),
    isRoundTrip := true, customerInfo := some wCI, passengers := [wPass],
    selectedServices := none, promoCode := none, totalAmount := some 500000,
    passengerCounts := none, paymentMethod := none, transactionInfo := none }

/-- Fixture for C9: a promotion that is active and inside its validity
window but whose usage count has reached its cap. -/
def c9Promo : Promotion :=
  { promo_id := 1, code := "MAXED", name := "Maxed", discount_type := "percent",
    discount_value := 10, valid_from := 0, valid_to := 100, usage_limit := 5,
    used_count := 5, status := "active" }

def c9DB : DB :=
  { flights := [], bookings := [], booking_details := [], payments := [],
    promotions := [c9Promo] }

/-- Fixture for C7: an unpaid booking carrying the promo code SALE20. -/
def c7Booking : BookingRow :=
  { booking_id := "BKPAID01", departure_flight_id := 1, return_flight_id := none,
    contact_name := "Nguyen Van A", email := "a@example.com", phone := "0903",
    travel_class := some "ECONOMY", total_amount := 100, booking_time := 0,
    payment_status := "unpaid", promo_code := some "SALE20", passengers_info := none,
    is_round_trip := 0 }

def c7DB : DB :=
  { flights := [wFlightDep], bookings := [c7Booking], booking_details := [],
    payments := [], promotions := [wPromo] }

/-- Fixture for C6: a paid round-trip booking with two passenger rows. -/
def c6Booking : BookingRow :=
  { booking_id := "BKC6", departure_flight_id := 1, return_flight_id := some 2,
    contact_name := "Nguyen Van A", email := "a@example.com", phone := "0903",
    travel_class := some "ECONOMY", total_amount := 3800000, booking_time := 0,
    payment_status := "paid", promo_code := none, passengers_info := none,
    is_round_trip := 1 }

def c6Detail1 : BookingDetail :=
  { booking_id := "BKC6", full_name := "Nguyen Van A", gender := "M", dob := none,
    passport_number := "ID1", passenger_type := "ADULT", luggage_weight := 0,
    insurance := 0, meal := 0 }

def c6Detail2 : BookingDetail :=
  { booking_id := "BKC6", full_name := "Nguyen Van B", gender := "F", dob := none,
    passport_number := "ID2", passenger_type := "CHILD", luggage_weight := 0,
    insurance := 0, meal := 0 }

def c6DB : DB :=
  { flights := [wFlightDep, wFlightRet], bookings := [c6Booking],
    booking_details := [c6Detail1, c6Detail2], payments := [], promotions := [] }

/-- Fixture for C4: the base request with the promo code SALE20 attached. -/
def c4Req : BookingRequest := { wReqBase with promoCode := some "SALE20" }

/-! Theorems. -/

/-- Reduction of the booking handler to its post-resolution stage, under the
hypotheses that validation passed and both flight lookups resolved. -/
theorem createBooking_path (db : DB) (now : Int) (req : BookingRequest) (freshId : String)
    (insertErr : Nat → Option String) (dref : FlightRef) (ci : CustomerInfo) (dep : Flight)
    (ret : Option Flight)
    (hm : missingFieldsOf req = [])
    (hdref : req.departureFlightId = some dref)
    (hci : req.customerInfo = some ci)
    (hdep : findFlight db dref = some dep)
    (hret : resolveReturn db req = .ok ret) :
    createBooking db now req freshId insertErr =
      createBookingChecked db now req ci dep ret freshId insertErr := by
  unfold createBooking
  simp [hm, hdref, hci, hdep, hret]

/-- C1: a CreateBooking request whose fare class has fewer available seats
than the passenger count on the departure leg (or, on a round trip, on the
return leg) fails with the insufficient-seats error carrying the available
and requested counts scoped to the failing leg, and the database - every seat
count, booking, detail and payment row - is returned unchanged. -/
theorem c1_insufficient_seats_rejects_without_mutation
    (db : DB) (now : Int) (req : BookingRequest) (freshId : String)
    (insertErr : Nat → Option String) (dref : FlightRef) (ci : CustomerInfo) (dep : Flight)
    (ret : Option Flight)
    (hm : missingFieldsOf req = [])
    (hdref : req.departureFlightId = some dref)
    (hci : req.customerInfo = some ci)
    (hdep : findFlight db dref = some dep)
    (hret : resolveReturn db req = .ok ret) :
    (seatsOf dep (seatClassOf ci) < (req.passengers.length : Int) →
      createBooking db now req freshId insertErr =
        (.insufficientSeats .dep (seatsOf dep (seatClassOf ci))
          (req.passengers.length : Int) (seatClassOf ci), db)) ∧
    (∀ rf, ret = some rf →
      ¬ seatsOf dep (seatClassOf ci) < (req.passengers.length : Int) →
      req.isRoundTrip = true →
      seatsOf rf (seatClassOf ci) < (req.passengers.length : Int) →
      createBooking db now req freshId insertErr =
        (.insufficientSeats .ret (seatsOf rf (seatClassOf ci))
          (req.passengers.length : Int) (seatClassOf ci), db)) := by
  rw [createBooking_path db now req freshId insertErr dref ci dep ret hm hdref hci hdep hret]
  constructor
  · intro h
    unfold createBookingChecked
    rw [if_pos h]
  · intro rf hrf hnd hrt hlt
    unfold createBookingChecked
    rw [if_neg hnd]
    unfold checkReturnSeats
    rw [hrt, hrf]
    simp [hlt]

/-- Witness for C1: five passengers against three economy seats. -/
theorem c1_witness :
    (missingFieldsOf { wReqBase with passengers := [wPass, wPass, wPass, wPass, wPass] } = [] ∧
     findFlight wDB (.byId 1) = some wFlightDep ∧
     resolveReturn wDB { wReqBase with passengers := [wPass, wPass, wPass, wPass, wPass] } = .ok none ∧
     seatsOf wFlightDep (seatClassOf wCI) <
       (({ wReqBase with passengers := [wPass, wPass, wPass, wPass, wPass] } :
          BookingRequest).passengers.length : Int)) ∧
    createBooking wDB 0 { wReqBase with passengers := [wPass, wPass, wPass, wPass, wPass] }
        "BK0001" (fun _ => none) =
      (.insufficientSeats .dep (seatsOf wFlightDep (seatClassOf wCI))
        (({ wReqBase with passengers := [wPass, wPass, wPass, wPass, wPass] } :
           BookingRequest).passengers.length : Int) (seatClassOf wCI), wDB) :=
  ⟨⟨by decide, by decide, by decide, by decide⟩,
   (c1_insufficient_seats_rejects_without_mutation wDB 0
      { wReqBase with passengers := [wPass, wPass, wPass, wPass, wPass] } "BK0001"
      (fun _ => none) (.byId 1) wCI wFlightDep none
      (by decide) (by decide) (by decide) (by decide) (by decide)).1 (by decide)⟩

/-- C2 counterexample: the seat-reserve UPDATE of the source has no guard, so
reserving two seats against a class holding one applies anyway and leaves the
count at -1; moreover a successful CreateBooking round trip whose return
flight equals its departure flight passes both availability checks against
the same single seat and then decrements it twice, driving the per-class
count to -1. -/
theorem c2_counterexample_reserve_unguarded :
    (updateSeats c2DB 9 "ECONOMY" (-2)).flights.map (fun f => f.seats_economy) = [-1] ∧
    (createBooking c2DB 0 c2Req "BK0002" (fun _ => none)).2.flights.map
      (fun f => f.seats_economy) = [-1] ∧
    (createBooking c2DB 0 c2Req "BK0002" (fun _ => none)).1 =
      .created "BK0002" 500000 := by
  decide

/-- C2 amended: the reserve decrement is unconditional (no guard keeps the
result at 0 or above), but when the availability check that precedes it in
the handler holds - the reserved class of the targeted flight has at least
`n` seats - and every per-class count is non-negative with the aggregate
equal to their sum, the decrement leaves every per-class and aggregate count
non-negative. -/
theorem c2_amended_checked_reserve_stays_nonneg
    (db : DB) (fid : Nat) (cls : String) (n : Int)
    (_hn : 0 ≤ n)
    (hall : ∀ f ∈ db.flights, 0 ≤ f.seats_economy ∧ 0 ≤ f.seats_premium_economy ∧
      0 ≤ f.seats_business ∧ 0 ≤ f.seats_first ∧
      f.available_seats = f.seats_economy + f.seats_premium_economy +
        f.seats_business + f.seats_first)
    (hcheck : ∀ f ∈ db.flights, f.flight_id = fid → n ≤ seatsOf f cls) :
    ∀ f ∈ (updateSeats db fid cls (-n)).flights,
      0 ≤ f.seats_economy ∧ 0 ≤ f.seats_premium_economy ∧ 0 ≤ f.seats_business ∧
      0 ≤ f.seats_first ∧ 0 ≤ f.available_seats := by
  intro f hf
  simp only [updateSeats, List.mem_map] at hf
  obtain ⟨g, hg, rfl⟩ := hf
  obtain ⟨he, hpe, hb, hfi, hsum⟩ := hall g hg
  by_cases hid : g.flight_id = fid
  · have h2 := hcheck g hg hid
    simp only [if_pos hid]
    unfold seatsOf at h2
    unfold adjustSeats
    split_ifs at h2 ⊢ <;> simp <;> omega
  · simp only [if_neg hid]
    omega

/-- Witness for C2 amended: reserving two of the three economy seats of the
fixture flight keeps every count non-negative. -/
theorem c2_amended_witness :
    ((0 : Int) ≤ 2 ∧
     (∀ f ∈ wDB.flights, 0 ≤ f.seats_economy ∧ 0 ≤ f.seats_premium_economy ∧
       0 ≤ f.seats_business ∧ 0 ≤ f.seats_first ∧
       f.available_seats = f.seats_economy + f.seats_premium_economy +
         f.seats_business + f.seats_first) ∧
     (∀ f ∈ wDB.flights, f.flight_id = 1 → (2 : Int) ≤ seatsOf f "ECONOMY")) ∧
    (∀ f ∈ (updateSeats wDB 1 "ECONOMY" (-2)).flights,
      0 ≤ f.seats_economy ∧ 0 ≤ f.seats_premium_economy ∧ 0 ≤ f.seats_business ∧
      0 ≤ f.seats_first ∧ 0 ≤ f.available_seats) :=
  ⟨⟨by decide, by decide, by decide⟩,
   c2_amended_checked_reserve_stays_nonneg wDB 1 "ECONOMY" 2 (by decide) (by decide) (by decide)⟩

/-- The fare-loop accumulator equals the sum of the per-passenger prices. -/
theorem calcLegAmount_eq_sum (now : Int) (ps : List Passenger) (b : ℚ) :
    calcLegAmount now ps b =
      (ps.map (fun p => b * getPriceMultiplierForPassengerType (calcType now p))).sum := by
  have h : ∀ (l : List Passenger) (a : ℚ),
      l.foldl (fun acc p => acc + b * getPriceMultiplierForPassengerType (calcType now p)) a =
        a + (l.map (fun p => b * getPriceMultiplierForPassengerType (calcType now p))).sum := by
    intro l
    induction l with
    | nil => intro a; simp
    | cons p rest ih =>
      intro a
      simp only [List.foldl_cons, List.map_cons, List.sum_cons, ih]
      ring
  unfold calcLegAmount
  rw [h]
  simp

/-- C3: when the caller supplies no explicit total, the computed booking
amount is the sum over all passengers of the selected class base price times
the passenger-type multiplier of the type classified for the passenger, plus
the same sum against the return flight base price on a round trip with a
resolved return flight; the multiplier table is ADULT 1, CHILD 0.75,
INFANT 0.1, and any unrecognized type 1.  The computation leaves the database
unchanged (no promo code supplied here; C4 covers the promo branch). -/
theorem c3_calculated_amount
    (db : DB) (now : Int) (req : BookingRequest) (dep : Flight) (ret : Option Flight)
    (cls : String)
    (hno : req.totalAmount = none)
    (hpc : jsStr req.promoCode = none) :
    (getPriceMultiplierForPassengerType "ADULT" = 1 ∧
     getPriceMultiplierForPassengerType "CHILD" = 3 / 4 ∧
     getPriceMultiplierForPassengerType "INFANT" = 1 / 10 ∧
     ∀ t, t ≠ "ADULT" → t ≠ "CHILD" → t ≠ "INFANT" →
       getPriceMultiplierForPassengerType t = 1) ∧
    (computeAmount db now req dep ret cls).2 = db ∧
    (req.isRoundTrip = false →
      (computeAmount db now req dep ret cls).1 =
        (req.passengers.map (fun p =>
          numVal (basePriceOf dep cls) *
            getPriceMultiplierForPassengerType (calcType now p))).sum) ∧
    (∀ rf, req.isRoundTrip = true → ret = some rf →
      (computeAmount db now req dep ret cls).1 =
        (req.passengers.map (fun p =>
          numVal (basePriceOf dep cls) *
            getPriceMultiplierForPassengerType (calcType now p))).sum +
        (req.passengers.map (fun p =>
          numVal (basePriceOf rf cls) *
            getPriceMultiplierForPassengerType (calcType now p))).sum) := by
  refine ⟨⟨by norm_num [getPriceMultiplierForPassengerType],
           by unfold getPriceMultiplierForPassengerType
              rw [if_neg (by decide), if_pos rfl]; norm_num,
           by unfold getPriceMultiplierForPassengerType
              rw [if_neg (by decide), if_neg (by decide), if_pos rfl]; norm_num, ?_⟩, ?_, ?_, ?_⟩
  · intro t h1 h2 h3
    simp [getPriceMultiplierForPassengerType, h1, h2, h3]
  · unfold computeAmount
    rw [hno, hpc]
  · intro hrt
    unfold computeAmount
    rw [hno, hpc]
    unfold calculatedAmountOf
    rw [hrt]
    simp [calcLegAmount_eq_sum]
  · intro rf hrt hrf
    unfold computeAmount
    rw [hno, hpc]
    unfold calculatedAmountOf
    rw [hrt, hrf]
    simp [calcLegAmount_eq_sum]

/-- Witness for C3: one adult and one child on a one-way economy flight. -/
theorem c3_witness :
    (wReqBase.totalAmount = none ∧ jsStr wReqBase.promoCode = none) ∧
    ((getPriceMultiplierForPassengerType "ADULT" = 1 ∧
      getPriceMultiplierForPassengerType "CHILD" = 3 / 4 ∧
      getPriceMultiplierForPassengerType "INFANT" = 1 / 10 ∧
      ∀ t, t ≠ "ADULT" → t ≠ "CHILD" → t ≠ "INFANT" →
        getPriceMultiplierForPassengerType t = 1) ∧
     (computeAmount wDB 0 wReqBase wFlightDep none "ECONOMY").2 = wDB ∧
     (wReqBase.isRoundTrip = false →
       (computeAmount wDB 0 wReqBase wFlightDep none "ECONOMY").1 =
         (wReqBase.passengers.map (fun p =>
           numVal (basePriceOf wFlightDep "ECONOMY") *
             getPriceMultiplierForPassengerType (calcType 0 p))).sum) ∧
     (∀ rf, wReqBase.isRoundTrip = true → (none : Option Flight) = some rf →
       (computeAmount wDB 0 wReqBase wFlightDep none "ECONOMY").1 =
         (wReqBase.passengers.map (fun p =>
           numVal (basePriceOf wFlightDep "ECONOMY") *
             getPriceMultiplierForPassengerType (calcType 0 p))).sum +
         (wReqBase.passengers.map (fun p =>
           numVal (basePriceOf rf "ECONOMY") *
             getPriceMultiplierForPassengerType (calcType 0 p))).sum)) :=
  ⟨⟨by decide, by decide⟩,
   c3_calculated_amount wDB 0 wReqBase wFlightDep none "ECONOMY" (by decide) (by decide)⟩

/-- C9 counterexample: a promotion that exists, is active and is inside its
validity window, but is exhausted (used count at its cap), is answered with
the same invalid-or-inactive not-found response the endpoint gives for a code
that is absent altogether - there is no distinct exhausted error, because the
lookup query itself filters on `used_count < usage_limit`. -/
theorem c9_counterexample_exhausted_not_distinct :
    (∃ q ∈ c9DB.promotions, q.code = "MAXED" ∧ q.status ≠ "inactive" ∧
      q.usage_limit ≤ q.used_count ∧ q.valid_from ≤ 50 ∧ (50 : Int) ≤ q.valid_to) ∧
    validatePromoCode c9DB 50 (some "MAXED") = .invalidOrInactive ∧
    validatePromoCode c9DB 50 (some "NOPE") = .invalidOrInactive := by
  decide

/-- C9 amended: validate fails with the not-found response when no promotion
row matches the lookup - the code is absent, the status is `inactive`, or the
usage count has reached the cap (the exhausted case produces the same
not-found response, not a distinct exhausted error); when a row matches, it
fails not-yet-valid when `now` is before the window, expired when `now` is
after it, and otherwise succeeds with the discount kind and magnitude. -/
theorem c9_amended_validate_taxonomy
    (db : DB) (now : Int) (code : Option String) (c : String)
    (hc : jsStr code = some c) :
    ((∀ q ∈ db.promotions,
        ¬(q.code = c ∧ q.status ≠ "inactive" ∧ q.used_count < q.usage_limit)) →
      validatePromoCode db now code = .invalidOrInactive) ∧
    (∀ pr, db.promotions.find? (fun q =>
        (q.code == c) && (q.status != "inactive") &&
          decide (q.used_count < q.usage_limit)) = some pr →
      (now < pr.valid_from → validatePromoCode db now code = .notYetValid) ∧
      (¬ now < pr.valid_from → pr.valid_to < now →
        validatePromoCode db now code = .expired) ∧
      (¬ now < pr.valid_from → ¬ pr.valid_to < now →
        validatePromoCode db now code = .valid pr.discount_type pr.discount_value)) := by
  constructor
  · intro hall
    unfold validatePromoCode
    rw [hc]
    have hnone : db.promotions.find? (fun q =>
        (q.code == c) && (q.status != "inactive") &&
          decide (q.used_count < q.usage_limit)) = none := by
      rw [List.find?_eq_none]
      intro q hq
      have h := hall q hq
      simp only [Bool.and_eq_true, beq_iff_eq, bne_iff_ne, ne_eq, decide_eq_true_eq]
      tauto
    simp [hnone]
  · intro pr hpr
    refine ⟨?_, ?_, ?_⟩
    · intro h1
      unfold validatePromoCode
      rw [hc]
      simp [hpr, h1]
    · intro h1 h2
      unfold validatePromoCode
      rw [hc]
      simp [hpr, h1, h2]
    · intro h1 h2
      unfold validatePromoCode
      rw [hc]
      simp [hpr, h1, h2]

/-- Witness for C9 amended: the fixture promotion SALE20 is found and, at a
time inside its window, validates with its percent discount of 20. -/
theorem c9_amended_witness :
    jsStr (some "SALE20") = some "SALE20" ∧
    (((∀ q ∈ wDB.promotions,
        ¬(q.code = "SALE20" ∧ q.status ≠ "inactive" ∧ q.used_count < q.usage_limit)) →
      validatePromoCode wDB 50 (some "SALE20") = .invalidOrInactive) ∧
    (∀ pr, wDB.promotions.find? (fun q =>
        (q.code == "SALE20") && (q.status != "inactive") &&
          decide (q.used_count < q.usage_limit)) = some pr →
      ((50 : Int) < pr.valid_from → validatePromoCode wDB 50 (some "SALE20") = .notYetValid) ∧
      (¬ (50 : Int) < pr.valid_from → pr.valid_to < 50 →
        validatePromoCode wDB 50 (some "SALE20") = .expired) ∧
      (¬ (50 : Int) < pr.valid_from → ¬ pr.valid_to < 50 →
        validatePromoCode wDB 50 (some "SALE20") = .valid pr.discount_type pr.discount_value))) :=
  ⟨by decide, c9_amended_validate_taxonomy wDB 50 (some "SALE20") "SALE20" (by decide)⟩

/-- A successful find? forces a non-empty filter for the same predicate. -/
theorem find?_filter_length_ne_zero {α : Type} (p : α → Bool) (l : List α) (a : α)
    (h : l.find? p = some a) : (l.filter p).length ≠ 0 := by
  have hm := List.mem_of_find?_eq_some h
  have hp := List.find?_some h
  have hmem : a ∈ l.filter p := List.mem_filter.mpr ⟨hm, hp⟩
  intro h0
  rw [List.length_eq_zero] at h0
  simp [h0] at hmem

/-- Incrementing the used count of the rows carrying one promo id raises the
total used count by the number of such rows. -/
theorem usedCountSum_map_inc (l : List Promotion) (pid : Nat) :
    ((l.map (fun q =>
        if q.promo_id = pid then { q with used_count := q.used_count + 1 } else q)).map
      (fun q => q.used_count)).sum =
    (l.map (fun q => q.used_count)).sum + (l.countP (fun q => q.promo_id == pid) : Int) := by
  induction l with
  | nil => simp
  | cons q rest ih =>
    simp only [List.map_cons, List.sum_cons, List.countP_cons, ih]
    by_cases h : q.promo_id = pid
    · simp only [h, if_pos rfl, beq_self_eq_true, if_true]
      push_cast
      ring
    · simp only [if_neg h, beq_iff_eq, h, if_false]
      push_cast
      ring

/-- The seat UPDATE touches only the flights table. -/
theorem updateSeats_frame (db : DB) (fid : Nat) (cls : String) (d : Int) :
    (updateSeats db fid cls d).bookings = db.bookings ∧
    (updateSeats db fid cls d).booking_details = db.booking_details ∧
    (updateSeats db fid cls d).payments = db.payments ∧
    (updateSeats db fid cls d).promotions = db.promotions :=
  ⟨rfl, rfl, rfl, rfl⟩

/-- The promo stage touches only the promotions table. -/
theorem promoStage_frame (db : DB) (cur : BookingRow) (ps : String) :
    (promoStage db cur ps).flights = db.flights ∧
    (promoStage db cur ps).bookings = db.bookings ∧
    (promoStage db cur ps).booking_details = db.booking_details ∧
    (promoStage db cur ps).payments = db.payments := by
  unfold promoStage
  cases jsStr cur.promo_code with
  | none => exact ⟨rfl, rfl, rfl, rfl⟩
  | some c =>
    dsimp only
    by_cases hc : ps = "paid" ∧ cur.payment_status ≠ "paid"
    · rw [if_pos hc]
      cases db.promotions.find? (fun q => q.code == c) with
      | none => exact ⟨rfl, rfl, rfl, rfl⟩
      | some pr => exact ⟨rfl, rfl, rfl, rfl⟩
    · rw [if_neg hc]
      exact ⟨rfl, rfl, rfl, rfl⟩

/-- The seat-restore stage touches only the flights table. -/
theorem restoreStage_frame (db1 : DB) (bookingId : String) (cur : BookingRow) (ps : String) :
    (restoreStage db1 bookingId cur ps).bookings = db1.bookings ∧
    (restoreStage db1 bookingId cur ps).booking_details = db1.booking_details ∧
    (restoreStage db1 bookingId cur ps).payments = db1.payments ∧
    (restoreStage db1 bookingId cur ps).promotions = db1.promotions := by
  unfold restoreStage
  by_cases h : (ps = "cancelled" ∨ ps = "refunded") ∧
      (cur.payment_status = "paid" ∨ cur.payment_status = "unpaid")
  · rw [if_pos h]
    by_cases h2 : cur.is_round_trip = 1
    · simp only [if_pos h2]
      cases cur.return_flight_id with
      | none => exact ⟨rfl, rfl, rfl, rfl⟩
      | some rid => exact ⟨rfl, rfl, rfl, rfl⟩
    · simp only [if_neg h2]
      exact ⟨rfl, rfl, rfl, rfl⟩
  · rw [if_neg h]
    exact ⟨rfl, rfl, rfl, rfl⟩

/-- The promo stage on a paid transition with an attached code naming an
existing promotion is exactly the used-count increment. -/
theorem promoStage_paid (db : DB) (cur : BookingRow) (c : String) (pr : Promotion)
    (hcode : jsStr cur.promo_code = some c)
    (hprev : cur.payment_status ≠ "paid")
    (hpr : db.promotions.find? (fun q => q.code == c) = some pr) :
    promoStage db cur "paid" = recordUsage db pr.promo_id := by
  unfold promoStage
  rw [hcode]
  simp [hprev, hpr]

/-- The seat-restore stage is skipped for a target status other than
cancelled or refunded. -/
theorem restoreStage_skip (db1 : DB) (bookingId : String) (cur : BookingRow) (ps : String)
    (h : ¬(ps = "cancelled" ∨ ps = "refunded")) :
    restoreStage db1 bookingId cur ps = db1 := by
  unfold restoreStage
  rw [if_neg (by tauto)]

/-- Reduction of the payment-status handler on a found booking: the promo and
restore stages run, then the status is written; the no-rows-changed branch is
unreachable because the looked-up booking matches the final UPDATE. -/
theorem updatePaymentStatus_eq (db : DB) (bookingId : String) (ps : String) (cur : BookingRow)
    (hps : ps ≠ "")
    (hfind : db.bookings.find? (fun b => b.booking_id == bookingId) = some cur) :
    updatePaymentStatus db bookingId (some ps) =
      (.updated,
       { restoreStage (promoStage db cur ps) bookingId cur ps with
         bookings := (restoreStage (promoStage db cur ps) bookingId cur ps).bookings.map
           (fun b => if b.booking_id = bookingId then { b with payment_status := ps } else b) }) := by
  have hb : (restoreStage (promoStage db cur ps) bookingId cur ps).bookings = db.bookings := by
    rw [(restoreStage_frame _ _ _ _).1, (promoStage_frame _ _ _).2.1]
  have hchanges : ¬((restoreStage (promoStage db cur ps) bookingId cur ps).bookings.filter
      (fun b => b.booking_id == bookingId)).length = 0 := by
    rw [hb]
    exact find?_filter_length_ne_zero _ _ _ hfind
  unfold updatePaymentStatus
  rw [show jsStr (some ps) = some ps from by simp [jsStr, hps]]
  simp only [hfind]
  rw [if_neg hchanges]

/-- C7: a payment-status update to `paid` on a booking whose stored status is
not `paid` and which carries a promo code naming an existing promotion
succeeds and rewrites the promotions table so that exactly the rows bearing
that promotion id get `used_count` raised by one; with the promo id unique
(it is the primary key) the total used count across the table rises by
exactly 1.  Flights are untouched by this path, so this increment is in
addition to (not merged with) the one booking creation performs. -/
theorem c7_paid_transition_increments_promo
    (db : DB) (bookingId : String) (cur : BookingRow) (c : String) (pr : Promotion)
    (hfind : db.bookings.find? (fun b => b.booking_id == bookingId) = some cur)
    (hprev : cur.payment_status ≠ "paid")
    (hcode : jsStr cur.promo_code = some c)
    (hpr : db.promotions.find? (fun q => q.code == c) = some pr) :
    (updatePaymentStatus db bookingId (some "paid")).1 = .updated ∧
    ((updatePaymentStatus db bookingId (some "paid")).2).promotions =
      db.promotions.map (fun q =>
        if q.promo_id = pr.promo_id then { q with used_count := q.used_count + 1 } else q) ∧
    (db.promotions.countP (fun q => q.promo_id == pr.promo_id) = 1 →
      (((updatePaymentStatus db bookingId (some "paid")).2).promotions.map
        (fun q => q.used_count)).sum =
      (db.promotions.map (fun q => q.used_count)).sum + 1) ∧
    ((updatePaymentStatus db bookingId (some "paid")).2).flights = db.flights := by
  have hstage : restoreStage (promoStage db cur "paid") bookingId cur "paid" =
      recordUsage db pr.promo_id := by
    rw [restoreStage_skip _ _ _ _ (by decide), promoStage_paid db cur c pr hcode hprev hpr]
  have hred : updatePaymentStatus db bookingId (some "paid") =
      (.updated, { recordUsage db pr.promo_id with
        bookings := db.bookings.map (fun b =>
          if b.booking_id = bookingId then { b with payment_status := "paid" } else b) }) := by
    rw [updatePaymentStatus_eq db bookingId "paid" cur (by decide) hfind, hstage]
    simp [recordUsage]
  rw [hred]
  refine ⟨rfl, by simp [recordUsage], ?_, by simp [recordUsage]⟩
  intro huniq
  simp only [recordUsage]
  rw [usedCountSum_map_inc, huniq]
  simp

/-- Witness for C7: marking the fixture unpaid booking paid bumps the used
count of SALE20. -/
theorem c7_witness :
    (c7DB.bookings.find? (fun b => b.booking_id == "BKPAID01") = some c7Booking ∧
     c7Booking.payment_status ≠ "paid" ∧
     jsStr c7Booking.promo_code = some "SALE20" ∧
     c7DB.promotions.find? (fun q => q.code == "SALE20") = some wPromo) ∧
    ((updatePaymentStatus c7DB "BKPAID01" (some "paid")).1 = .updated ∧
     ((updatePaymentStatus c7DB "BKPAID01" (some "paid")).2).promotions =
       c7DB.promotions.map (fun q =>
         if q.promo_id = wPromo.promo_id then { q with used_count := q.used_count + 1 } else q) ∧
     (c7DB.promotions.countP (fun q => q.promo_id == wPromo.promo_id) = 1 →
       (((updatePaymentStatus c7DB "BKPAID01" (some "paid")).2).promotions.map
         (fun q => q.used_count)).sum =
       (c7DB.promotions.map (fun q => q.used_count)).sum + 1) ∧
     ((updatePaymentStatus c7DB "BKPAID01" (some "paid")).2).flights = c7DB.flights) :=
  ⟨⟨by decide, by decide, by decide, by decide⟩,
   c7_paid_transition_increments_promo c7DB "BKPAID01" c7Booking "SALE20" wPromo
     (by decide) (by decide) (by decide) (by decide)⟩

/-- The seat adjustment never changes the flight id. -/
theorem adjustSeats_flight_id (f : Flight) (cls : String) (d : Int) :
    (adjustSeats f cls d).flight_id = f.flight_id := by
  unfold adjustSeats
  split_ifs <;> rfl

/-- Releasing the seats a reserve removed restores the flight row exactly. -/
theorem adjustSeats_inverse (f : Flight) (cls : String) (m : Int) :
    adjustSeats (adjustSeats f cls (-m)) cls m = f := by
  obtain ⟨fid, ac, fn, pe, ppe, pb, pf, se, spe, sb, sf, av⟩ := f
  unfold adjustSeats
  split_ifs <;> simp_all

/-- Releasing the seats a reserve removed restores the whole flights table. -/
theorem updateSeats_inverse (db : DB) (fid : Nat) (cls : String) (m : Int) :
    updateSeats (updateSeats db fid cls (-m)) fid cls m = db := by
  unfold updateSeats
  simp only [List.map_map]
  have h : ∀ f ∈ db.flights,
      ((fun f => if f.flight_id = fid then adjustSeats f cls m else f) ∘
       (fun f => if f.flight_id = fid then adjustSeats f cls (-m) else f)) f = f := by
    intro f _
    by_cases hid : f.flight_id = fid
    · simp [Function.comp, hid, adjustSeats_flight_id, adjustSeats_inverse]
    · simp [Function.comp, hid]
  rw [List.map_congr_left h]
  simp

/-- The promo stage is skipped when the target status is not `paid`. -/
theorem promoStage_skip (db : DB) (cur : BookingRow) (ps : String)
    (h : ps ≠ "paid") : promoStage db cur ps = db := by
  unfold promoStage
  cases jsStr cur.promo_code with
  | none => rfl
  | some c =>
    dsimp only
    rw [if_neg (by tauto)]

/-- C6: updating the payment status to cancelled or refunded from paid or
unpaid succeeds and rewrites the flights table by adding the count of the
booking detail rows to the selected class seat column and to the aggregate
column of the departure flight and then, on a round trip, of the return
flight; and releasing what a reserve removed restores flight rows exactly. -/
theorem c6_cancel_restores_seats
    (db : DB) (bookingId : String) (cur : BookingRow) (ps : String)
    (hfind : db.bookings.find? (fun b => b.booking_id == bookingId) = some cur)
    (hps : ps = "cancelled" ∨ ps = "refunded")
    (hprev : cur.payment_status = "paid" ∨ cur.payment_status = "unpaid") :
    (updatePaymentStatus db bookingId (some ps)).1 = .updated ∧
    (cur.is_round_trip ≠ 1 →
      ((updatePaymentStatus db bookingId (some ps)).2).flights =
        db.flights.map (fun f =>
          if f.flight_id = cur.departure_flight_id then
            adjustSeats f ((jsStr cur.travel_class).getD "ECONOMY")
              ((db.booking_details.filter (fun d => d.booking_id == bookingId)).length : Int)
          else f)) ∧
    (cur.is_round_trip = 1 → ∀ rid, cur.return_flight_id = some rid →
      ((updatePaymentStatus db bookingId (some ps)).2).flights =
        (db.flights.map (fun f =>
          if f.flight_id = cur.departure_flight_id then
            adjustSeats f ((jsStr cur.travel_class).getD "ECONOMY")
              ((db.booking_details.filter (fun d => d.booking_id == bookingId)).length : Int)
          else f)).map (fun f =>
          if f.flight_id = rid then
            adjustSeats f ((jsStr cur.travel_class).getD "ECONOMY")
              ((db.booking_details.filter (fun d => d.booking_id == bookingId)).length : Int)
          else f)) ∧
    (∀ f cls m, adjustSeats (adjustSeats f cls (-m)) cls m = f) ∧
    (∀ db0 fid cls m, updateSeats (updateSeats db0 fid cls (-m)) fid cls m = db0) := by
  have hps' : ps ≠ "" := by rcases hps with h | h <;> subst h <;> decide
  have hnp : ps ≠ "paid" := by rcases hps with h | h <;> subst h <;> decide
  have hred := updatePaymentStatus_eq db bookingId ps cur hps' hfind
  rw [promoStage_skip db cur ps hnp] at hred
  have hdet : (restoreStage db bookingId cur ps).flights =
      (let cnt : Int :=
        ((db.booking_details.filter (fun d => d.booking_id == bookingId)).length : Int)
      let cls := (jsStr cur.travel_class).getD "ECONOMY"
      let dbA := updateSeats db cur.departure_flight_id cls cnt
      (if cur.is_round_trip = 1 then
        match cur.return_flight_id with
        | some rid => updateSeats dbA rid cls cnt
        | none => dbA
      else dbA)).flights := by
    unfold restoreStage
    rw [if_pos ⟨hps, hprev⟩]
  refine ⟨by rw [hred], ?_, ?_, adjustSeats_inverse, updateSeats_inverse⟩
  · intro hrt
    rw [hred]
    dsimp only
    rw [hdet]
    simp only [if_neg hrt]
    rfl
  · intro hrt rid hrid
    rw [hred]
    dsimp only
    rw [hdet]
    simp only [if_pos hrt, hrid]
    rfl

/-- Witness for C6: cancelling the paid round-trip fixture booking restores
two seats per leg. -/
theorem c6_witness :
    (c6DB.bookings.find? (fun b => b.booking_id == "BKC6") = some c6Booking ∧
     ("cancelled" = "cancelled" ∨ "cancelled" = "refunded") ∧
     (c6Booking.payment_status = "paid" ∨ c6Booking.payment_status = "unpaid")) ∧
    ((updatePaymentStatus c6DB "BKC6" (some "cancelled")).1 = .updated ∧
     (c6Booking.is_round_trip ≠ 1 →
       ((updatePaymentStatus c6DB "BKC6" (some "cancelled")).2).flights =
         c6DB.flights.map (fun f =>
           if f.flight_id = c6Booking.departure_flight_id then
             adjustSeats f ((jsStr c6Booking.travel_class).getD "ECONOMY")
               ((c6DB.booking_details.filter (fun d => d.booking_id == "BKC6")).length : Int)
           else f)) ∧
     (c6Booking.is_round_trip = 1 → ∀ rid, c6Booking.return_flight_id = some rid →
       ((updatePaymentStatus c6DB "BKC6" (some "cancelled")).2).flights =
         (c6DB.flights.map (fun f =>
           if f.flight_id = c6Booking.departure_flight_id then
             adjustSeats f ((jsStr c6Booking.travel_class).getD "ECONOMY")
               ((c6DB.booking_details.filter (fun d => d.booking_id == "BKC6")).length : Int)
           else f)).map (fun f =>
           if f.flight_id = rid then
             adjustSeats f ((jsStr c6Booking.travel_class).getD "ECONOMY")
               ((c6DB.booking_details.filter (fun d => d.booking_id == "BKC6")).length : Int)
           else f)) ∧
     (∀ f cls m, adjustSeats (adjustSeats f cls (-m)) cls m = f) ∧
     (∀ db0 fid cls m, updateSeats (updateSeats db0 fid cls (-m)) fid cls m = db0)) :=
  ⟨⟨by decide, by decide, by decide⟩,
   c6_cancel_restores_seats c6DB "BKC6" c6Booking "cancelled"
     (by decide) (by decide) (by decide)⟩

/-- The amount computation touches at most the promotions table. -/
theorem computeAmount_frame (db : DB) (now : Int) (req : BookingRequest) (dep : Flight)
    (ret : Option Flight) (cls : String) :
    ((computeAmount db now req dep ret cls).2).flights = db.flights ∧
    ((computeAmount db now req dep ret cls).2).bookings = db.bookings ∧
    ((computeAmount db now req dep ret cls).2).booking_details = db.booking_details ∧
    ((computeAmount db now req dep ret cls).2).payments = db.payments := by
  unfold computeAmount
  cases req.totalAmount with
  | some t => exact ⟨rfl, rfl, rfl, rfl⟩
  | none =>
    dsimp only
    cases jsStr req.promoCode with
    | none => exact ⟨rfl, rfl, rfl, rfl⟩
    | some c =>
      dsimp only
      cases findBookingPromo db now c with
      | none => exact ⟨rfl, rfl, rfl, rfl⟩
      | some pr => exact ⟨rfl, rfl, rfl, rfl⟩

/-- The detail-insert loop touches at most bookings and booking details. -/
theorem insertDetails_frame (now : Int) (bid : String) (insertErr : Nat → Option String)
    (svc : Option Services) (ex : Bool) :
    ∀ (ps : List Passenger) (idx : Nat) (db : DB),
      ((insertDetails db now bid ps idx insertErr svc ex).2).flights = db.flights ∧
      ((insertDetails db now bid ps idx insertErr svc ex).2).payments = db.payments ∧
      ((insertDetails db now bid ps idx insertErr svc ex).2).promotions = db.promotions := by
  intro ps
  induction ps with
  | nil => intro idx db; exact ⟨rfl, rfl, rfl⟩
  | cons p rest ih =>
    intro idx db
    unfold insertDetails
    by_cases hf : jsStr p.fullName = none
    · rw [if_pos hf]
      exact ⟨rfl, rfl, rfl⟩
    · rw [if_neg hf]
      cases insertErr idx with
      | some msg => exact ⟨rfl, rfl, rfl⟩
      | none =>
        dsimp only
        exact ih (idx + 1) _

/-- The payment INSERT touches at most the payments table. -/
theorem insertPayment_frame (db : DB) (bid : String) (method txInfo : Option String) :
    (insertPayment db bid method txInfo).flights = db.flights ∧
    (insertPayment db bid method txInfo).bookings = db.bookings ∧
    (insertPayment db bid method txInfo).booking_details = db.booking_details ∧
    (insertPayment db bid method txInfo).promotions = db.promotions := by
  unfold insertPayment
  cases jsStr method with
  | none => exact ⟨rfl, rfl, rfl, rfl⟩
  | some m => exact ⟨rfl, rfl, rfl, rfl⟩

/-- The reserve stage touches at most flights and (through the promo branch
of the amount computation) promotions. -/
theorem reservedState_frame (db : DB) (now : Int) (req : BookingRequest) (ci : CustomerInfo)
    (dep : Flight) (ret : Option Flight) :
    (reservedState db now req ci dep ret).bookings = db.bookings ∧
    (reservedState db now req ci dep ret).booking_details = db.booking_details ∧
    (reservedState db now req ci dep ret).payments = db.payments ∧
    (reservedState db now req ci dep ret).promotions =
      ((computeAmount db now req dep ret (seatClassOf ci)).2).promotions := by
  obtain ⟨h1, h2, h3, h4⟩ := computeAmount_frame db now req dep ret (seatClassOf ci)
  unfold reservedState
  dsimp only
  cases req.isRoundTrip with
  | false => exact ⟨h2, h3, h4, rfl⟩
  | true =>
    cases ret with
    | none => exact ⟨h2, h3, h4, rfl⟩
    | some rf => exact ⟨h2, h3, h4, rfl⟩

/-- With every INSERT succeeding and every passenger carrying a truthy name,
the detail loop appends one row per passenger and reports no failure. -/
theorem insertDetails_success (now : Int) (bid : String) (insertErr : Nat → Option String)
    (svc : Option Services) (ex : Bool)
    (hok : ∀ i, insertErr i = none) :
    ∀ (ps : List Passenger) (idx : Nat) (db : DB),
      (∀ p ∈ ps, jsStr p.fullName ≠ none) →
      insertDetails db now bid ps idx insertErr svc ex =
        (none, { db with booking_details :=
          db.booking_details ++ ps.map (mkDetail now bid ex svc) }) := by
  intro ps
  induction ps with
  | nil =>
    intro idx db hnames
    simp [insertDetails]
  | cons p rest ih =>
    intro idx db hnames
    unfold insertDetails
    rw [if_neg (hnames p (by simp)), hok idx]
    dsimp only
    rw [ih (idx + 1) _ (fun q hq => hnames q (by simp [hq]))]
    simp

/-- Reduction of the checked stage to the reserve stage when both
availability checks pass. -/
theorem createBookingChecked_pass (db : DB) (now : Int) (req : BookingRequest)
    (ci : CustomerInfo) (dep : Flight) (ret : Option Flight) (freshId : String)
    (insertErr : Nat → Option String)
    (hs1 : ¬ seatsOf dep (seatClassOf ci) < (req.passengers.length : Int))
    (hs2 : checkReturnSeats req.isRoundTrip ret (seatClassOf ci)
      (req.passengers.length : Int) = none) :
    createBookingChecked db now req ci dep ret freshId insertErr =
      createBookingReserve db now req ci dep ret freshId insertErr := by
  unfold createBookingChecked
  rw [if_neg hs1, hs2]

/-- Reduction of the reserve stage on the fully successful path. -/
theorem createBookingReserve_success (db : DB) (now : Int) (req : BookingRequest)
    (ci : CustomerInfo) (dep : Flight) (ret : Option Flight) (freshId : String)
    (insertErr : Nat → Option String) (retId : Option Nat)
    (hok : headerReturnId req.isRoundTrip ret = .ok retId)
    (hins : ∀ i, insertErr i = none)
    (hnames : ∀ p ∈ req.passengers, jsStr p.fullName ≠ none) :
    createBookingReserve db now req ci dep ret freshId insertErr =
      (.created freshId (max 0 (computeAmount db now req dep ret (seatClassOf ci)).1),
       insertPayment
         { reservedState db now req ci dep ret with
           bookings := (reservedState db now req ci dep ret).bookings ++
             [bookingRowOf db now req ci dep ret retId freshId],
           booking_details := (reservedState db now req ci dep ret).booking_details ++
             req.passengers.map
               (mkDetail now freshId (req.totalAmount = none) req.selectedServices) }
         freshId req.paymentMethod req.transactionInfo) := by
  unfold createBookingReserve
  rw [hok]
  dsimp only
  rw [insertDetails_success now freshId insertErr req.selectedServices
    (req.totalAmount = none) hins req.passengers 0 _ hnames]

/-- C4: on a successful CreateBooking, the stored and returned total is the
clamp to non-negative of the computed amount; a caller-supplied total is
taken as-is into that clamp with no promo lookup and no database mutation by
the amount step (the discount is not applied to it); with no caller-supplied
total and a promo row matched by the booking-path query, the discount -
percent: amount times magnitude over 100; fixed: the raw magnitude - is
subtracted from the calculated amount. -/
theorem c4_amount_policy
    (db : DB) (now : Int) (req : BookingRequest) (freshId : String)
    (insertErr : Nat → Option String) (dref : FlightRef) (ci : CustomerInfo) (dep : Flight)
    (ret : Option Flight) (retId : Option Nat)
    (hm : missingFieldsOf req = [])
    (hdref : req.departureFlightId = some dref)
    (hci : req.customerInfo = some ci)
    (hdep : findFlight db dref = some dep)
    (hret : resolveReturn db req = .ok ret)
    (hs1 : ¬ seatsOf dep (seatClassOf ci) < (req.passengers.length : Int))
    (hs2 : checkReturnSeats req.isRoundTrip ret (seatClassOf ci)
      (req.passengers.length : Int) = none)
    (hok : headerReturnId req.isRoundTrip ret = .ok retId)
    (hins : ∀ i, insertErr i = none)
    (hnames : ∀ p ∈ req.passengers, jsStr p.fullName ≠ none) :
    (createBooking db now req freshId insertErr).1 =
      .created freshId (max 0 (computeAmount db now req dep ret (seatClassOf ci)).1) ∧
    bookingRowOf db now req ci dep ret retId freshId ∈
      ((createBooking db now req freshId insertErr).2).bookings ∧
    (bookingRowOf db now req ci dep ret retId freshId).total_amount =
      max 0 (computeAmount db now req dep ret (seatClassOf ci)).1 ∧
    0 ≤ max 0 (computeAmount db now req dep ret (seatClassOf ci)).1 ∧
    (∀ t, req.totalAmount = some t →
      (computeAmount db now req dep ret (seatClassOf ci)).1 = t ∧
      (computeAmount db now req dep ret (seatClassOf ci)).2 = db) ∧
    (req.totalAmount = none → ∀ c pr, jsStr req.promoCode = some c →
      findBookingPromo db now c = some pr →
      (computeAmount db now req dep ret (seatClassOf ci)).1 =
        calculatedAmountOf now req dep ret (seatClassOf ci) -
          (if pr.discount_type = "percent" then
            calculatedAmountOf now req dep ret (seatClassOf ci) * (pr.discount_value / 100)
          else if pr.discount_type = "fixed" then pr.discount_value
          else 0)) := by
  have hred : createBooking db now req freshId insertErr =
      (.created freshId (max 0 (computeAmount db now req dep ret (seatClassOf ci)).1),
       insertPayment
         { reservedState db now req ci dep ret with
           bookings := (reservedState db now req ci dep ret).bookings ++
             [bookingRowOf db now req ci dep ret retId freshId],
           booking_details := (reservedState db now req ci dep ret).booking_details ++
             req.passengers.map
               (mkDetail now freshId (req.totalAmount = none) req.selectedServices) }
         freshId req.paymentMethod req.transactionInfo) := by
    rw [createBooking_path db now req freshId insertErr dref ci dep ret hm hdref hci hdep hret,
      createBookingChecked_pass db now req ci dep ret freshId insertErr hs1 hs2,
      createBookingReserve_success db now req ci dep ret freshId insertErr retId hok hins hnames]
  refine ⟨by rw [hred], ?_, rfl, le_max_left 0 _, ?_, ?_⟩
  · rw [hred]
    dsimp only
    rw [(insertPayment_frame _ _ _ _).2.1]
    exact List.mem_append_right _ (List.mem_singleton.mpr rfl)
  · intro t ht
    unfold computeAmount
    rw [ht]
    exact ⟨rfl, rfl⟩
  · intro hnone c pr hc hpr
    unfold computeAmount
    rw [hnone]
    dsimp only
    rw [hc]
    dsimp only
    rw [hpr]
    dsimp only
    unfold discountOf
    rfl

/-- Witness for C4: a successful booking with the SALE20 promo and no
explicit total. -/
theorem c4_witness :
    (missingFieldsOf c4Req = [] ∧
     c4Req.departureFlightId = some (.byId 1) ∧
     c4Req.customerInfo = some wCI ∧
     findFlight wDB (.byId 1) = some wFlightDep ∧
     resolveReturn wDB c4Req = .ok none ∧
     ¬ seatsOf wFlightDep (seatClassOf wCI) < (c4Req.passengers.length : Int) ∧
     checkReturnSeats c4Req.isRoundTrip none (seatClassOf wCI)
       (c4Req.passengers.length : Int) = none ∧
     headerReturnId c4Req.isRoundTrip none = .ok none ∧
     (∀ i : Nat, (fun _ : Nat => (none : Option String)) i = none) ∧
     (∀ p ∈ c4Req.passengers, jsStr p.fullName ≠ none)) ∧
    ((createBooking wDB 50 c4Req "BKC4" (fun _ => none)).1 =
      .created "BKC4" (max 0 (computeAmount wDB 50 c4Req wFlightDep none (seatClassOf wCI)).1) ∧
     bookingRowOf wDB 50 c4Req wCI wFlightDep none none "BKC4" ∈
       ((createBooking wDB 50 c4Req "BKC4" (fun _ => none)).2).bookings ∧
     (bookingRowOf wDB 50 c4Req wCI wFlightDep none none "BKC4").total_amount =
       max 0 (computeAmount wDB 50 c4Req wFlightDep none (seatClassOf wCI)).1 ∧
     0 ≤ max 0 (computeAmount wDB 50 c4Req wFlightDep none (seatClassOf wCI)).1 ∧
     (∀ t, c4Req.totalAmount = some t →
       (computeAmount wDB 50 c4Req wFlightDep none (seatClassOf wCI)).1 = t ∧
       (computeAmount wDB 50 c4Req wFlightDep none (seatClassOf wCI)).2 = wDB) ∧
     (c4Req.totalAmount = none → ∀ c pr, jsStr c4Req.promoCode = some c →
       findBookingPromo wDB 50 c = some pr →
       (computeAmount wDB 50 c4Req wFlightDep none (seatClassOf wCI)).1 =
         calculatedAmountOf 50 c4Req wFlightDep none (seatClassOf wCI) -
           (if pr.discount_type = "percent" then
             calculatedAmountOf 50 c4Req wFlightDep none (seatClassOf wCI) *
               (pr.discount_value / 100)
           else if pr.discount_type = "fixed" then pr.discount_value
           else 0))) :=
  ⟨⟨by decide, by decide, by decide, by decide, by decide, by decide, by decide, by decide,
    fun _ => rfl, by decide⟩,
   c4_amount_policy wDB 50 c4Req "BKC4" (fun _ => none) (.byId 1) wCI wFlightDep none none
     (by decide) (by decide) (by decide) (by decide) (by decide) (by decide) (by decide)
     (by decide) (fun _ => rfl) (by decide)⟩

/-- Reduction of the detail-insert loop when the first `i` INSERT statements
succeed on passengers with truthy names and the INSERT for passenger `i`
throws: the loop stops, deletes every booking row with this booking id, and
reports the thrown message. -/
theorem insertDetails_failAt (now : Int) (bid : String) (svc : Option Services) (ex : Bool)
    (insertErr : Nat → Option String) (msg : String) :
    ∀ (i : Nat) (ps : List Passenger) (idx : Nat) (db : DB),
      (∀ j, j < i → insertErr (idx + j) = none) →
      insertErr (idx + i) = some msg →
      i < ps.length →
      (∀ p ∈ ps.take (i + 1), jsStr p.fullName ≠ none) →
      insertDetails db now bid ps idx insertErr svc ex =
        (some (.failedToCreate ("Failed to save passenger details: " ++ msg)),
         { db with
           booking_details := db.booking_details ++ ((ps.take i).map (mkDetail now bid ex svc)),
           bookings := db.bookings.filter (fun b => b.booking_id ≠ bid) }) := by
  intro i
  induction i with
  | zero =>
    intro ps idx db hpre hfail hlen hnames
    cases ps with
    | nil => simp at hlen
    | cons p rest =>
      unfold insertDetails
      rw [Nat.add_zero] at hfail
      rw [if_neg (hnames p (by simp)), hfail]
      simp
  | succ k ih =>
    intro ps idx db hpre hfail hlen hnames
    cases ps with
    | nil => simp at hlen
    | cons p rest =>
      unfold insertDetails
      rw [if_neg (hnames p (by simp [List.take_succ_cons]))]
      have h0 : insertErr idx = none := by
        have h := hpre 0 (Nat.succ_pos k)
        simpa using h
      rw [h0]
      dsimp only
      rw [ih rest (idx + 1) _
        (fun j hj => by
          have h := hpre (j + 1) (by omega)
          have he : idx + (j + 1) = idx + 1 + j := by omega
          rw [he] at h
          exact h)
        (by
          have he : idx + (k + 1) = idx + 1 + k := by omega
          rw [he] at hfail
          exact hfail)
        (by simpa using hlen)
        (fun q hq => hnames q (by simp [List.take_succ_cons, hq]))]
      simp [List.take_succ_cons]

/-- C5: when a passenger-detail INSERT fails after the header was written,
CreateBooking answers with the persistence failure carrying the original
error message, the booking header is rolled back (the bookings table returns
to its pre-call contents, the id being fresh), no payment row is written, and
the flights table keeps the reserved (decremented) seat counts. -/
theorem c5_rollback_on_detail_failure
    (db : DB) (now : Int) (req : BookingRequest) (freshId : String)
    (insertErr : Nat → Option String) (dref : FlightRef) (ci : CustomerInfo) (dep : Flight)
    (ret : Option Flight) (retId : Option Nat) (i : Nat) (msg : String)
    (hm : missingFieldsOf req = [])
    (hdref : req.departureFlightId = some dref)
    (hci : req.customerInfo = some ci)
    (hdep : findFlight db dref = some dep)
    (hret : resolveReturn db req = .ok ret)
    (hs1 : ¬ seatsOf dep (seatClassOf ci) < (req.passengers.length : Int))
    (hs2 : checkReturnSeats req.isRoundTrip ret (seatClassOf ci)
      (req.passengers.length : Int) = none)
    (hok : headerReturnId req.isRoundTrip ret = .ok retId)
    (hfresh : ∀ b ∈ db.bookings, b.booking_id ≠ freshId)
    (hpre : ∀ j, j < i → insertErr j = none)
    (hfail : insertErr i = some msg)
    (hlen : i < req.passengers.length)
    (hnames : ∀ p ∈ req.passengers.take (i + 1), jsStr p.fullName ≠ none) :
    (createBooking db now req freshId insertErr).1 =
      .failedToCreate ("Failed to save passenger details: " ++ msg) ∧
    ((createBooking db now req freshId insertErr).2).bookings = db.bookings ∧
    ((createBooking db now req freshId insertErr).2).flights =
      (reservedState db now req ci dep ret).flights ∧
    ((createBooking db now req freshId insertErr).2).payments = db.payments := by
  have hred : createBooking db now req freshId insertErr =
      createBookingReserve db now req ci dep ret freshId insertErr := by
    rw [createBooking_path db now req freshId insertErr dref ci dep ret hm hdref hci hdep hret,
      createBookingChecked_pass db now req ci dep ret freshId insertErr hs1 hs2]
  obtain ⟨hrb, hrd, hrp, _⟩ := reservedState_frame db now req ci dep ret
  have hfailred := insertDetails_failAt now freshId req.selectedServices
    (req.totalAmount = none) insertErr msg i req.passengers 0
    { reservedState db now req ci dep ret with bookings :=
        (reservedState db now req ci dep ret).bookings ++
          [bookingRowOf db now req ci dep ret retId freshId] }
    (fun j hj => by rw [Nat.zero_add]; exact hpre j hj)
    (by rw [Nat.zero_add]; exact hfail) hlen hnames
  have hfilter : ((reservedState db now req ci dep ret).bookings ++
      [bookingRowOf db now req ci dep ret retId freshId]).filter
        (fun b => b.booking_id ≠ freshId) = db.bookings := by
    rw [List.filter_append, hrb]
    have h1 : db.bookings.filter (fun b => b.booking_id ≠ freshId) = db.bookings := by
      rw [List.filter_eq_self]
      intro b hb
      simpa using hfresh b hb
    have h2 : ([bookingRowOf db now req ci dep ret retId freshId]).filter
        (fun b => b.booking_id ≠ freshId) = [] := by
      simp [bookingRowOf]
    rw [h1, h2, List.append_nil]
  rw [hred]
  unfold createBookingReserve
  rw [hok]
  dsimp only
  rw [hfailred]
  exact ⟨rfl, hfilter, rfl, hrp⟩

/-- Witness for C5: the very first detail INSERT throws, the header is
rolled back and the seats stay reserved. -/
theorem c5_witness :
    (missingFieldsOf wReqBase = [] ∧
     wReqBase.departureFlightId = some (.byId 1) ∧
     wReqBase.customerInfo = some wCI ∧
     findFlight wDB (.byId 1) = some wFlightDep ∧
     resolveReturn wDB wReqBase = .ok none ∧
     ¬ seatsOf wFlightDep (seatClassOf wCI) < (wReqBase.passengers.length : Int) ∧
     checkReturnSeats wReqBase.isRoundTrip none (seatClassOf wCI)
       (wReqBase.passengers.length : Int) = none ∧
     headerReturnId wReqBase.isRoundTrip none = .ok none ∧
     (∀ b ∈ wDB.bookings, b.booking_id ≠ "BKC5") ∧
     (∀ j : Nat, j < 0 → (fun _ : Nat => some "SQLITE_CONSTRAINT") j = none) ∧
     (fun _ : Nat => some "SQLITE_CONSTRAINT") 0 = some "SQLITE_CONSTRAINT" ∧
     0 < wReqBase.passengers.length ∧
     (∀ p ∈ wReqBase.passengers.take (0 + 1), jsStr p.fullName ≠ none)) ∧
    ((createBooking wDB 0 wReqBase "BKC5" (fun _ => some "SQLITE_CONSTRAINT")).1 =
      .failedToCreate ("Failed to save passenger details: " ++ "SQLITE_CONSTRAINT") ∧
     ((createBooking wDB 0 wReqBase "BKC5" (fun _ => some "SQLITE_CONSTRAINT")).2).bookings =
       wDB.bookings ∧
     ((createBooking wDB 0 wReqBase "BKC5" (fun _ => some "SQLITE_CONSTRAINT")).2).flights =
       (reservedState wDB 0 wReqBase wCI wFlightDep none).flights ∧
     ((createBooking wDB 0 wReqBase "BKC5" (fun _ => some "SQLITE_CONSTRAINT")).2).payments =
       wDB.payments) :=
  ⟨⟨by decide, by decide, by decide, by decide, by decide, by decide, by decide, by decide,
    by decide, fun j hj => absurd hj (Nat.not_lt_zero j), rfl, by decide, by decide⟩,
   c5_rollback_on_detail_failure wDB 0 wReqBase "BKC5" (fun _ => some "SQLITE_CONSTRAINT")
     (.byId 1) wCI wFlightDep none none 0 "SQLITE_CONSTRAINT"
     (by decide) (by decide) (by decide) (by decide) (by decide) (by decide) (by decide)
     (by decide) (by decide) (fun j hj => absurd hj (Nat.not_lt_zero j)) rfl
     (by decide) (by decide)⟩

/-- Every seat adjustment moves one class column and the aggregate by the
same delta, so it preserves the aggregate-seats invariant. -/
theorem adjustSeats_aggInv (f : Flight) (cls : String) (d : Int) (h : aggInv f) :
    aggInv (adjustSeats f cls d) := by
  unfold aggInv at *
  unfold adjustSeats
  split_ifs <;> simp <;> omega

/-- The seat UPDATE preserves the aggregate-seats invariant on every row. -/
theorem updateSeats_aggInv (db : DB) (fid : Nat) (cls : String) (d : Int)
    (h : ∀ f ∈ db.flights, aggInv f) :
    ∀ f ∈ (updateSeats db fid cls d).flights, aggInv f := by
  intro f hf
  simp only [updateSeats, List.mem_map] at hf
  obtain ⟨g, hg, rfl⟩ := hf
  by_cases hid : g.flight_id = fid
  · simp only [if_pos hid]
    exact adjustSeats_aggInv g cls d (h g hg)
  · simp only [if_neg hid]
    exact h g hg

/-- The reserve stage preserves the aggregate-seats invariant. -/
theorem reservedState_aggInv (db : DB) (now : Int) (req : BookingRequest) (ci : CustomerInfo)
    (dep : Flight) (ret : Option Flight)
    (h : ∀ f ∈ db.flights, aggInv f) :
    ∀ f ∈ (reservedState db now req ci dep ret).flights, aggInv f := by
  have hca : ((computeAmount db now req dep ret (seatClassOf ci)).2).flights = db.flights :=
    (computeAmount_frame db now req dep ret (seatClassOf ci)).1
  have h1 : ∀ f ∈ (updateSeats ((computeAmount db now req dep ret (seatClassOf ci)).2)
      dep.flight_id (seatClassOf ci) (-(req.passengers.length : Int))).flights, aggInv f := by
    apply updateSeats_aggInv
    rw [hca]
    exact h
  unfold reservedState
  dsimp only
  cases req.isRoundTrip with
  | false => exact h1
  | true =>
    cases ret with
    | none => exact h1
    | some rf => exact updateSeats_aggInv _ _ _ _ h1

/-- The reserve stage is the only part of the booking handler that touches
the flights table. -/
theorem createBookingReserve_flights (db : DB) (now : Int) (req : BookingRequest)
    (ci : CustomerInfo) (dep : Flight) (ret : Option Flight) (freshId : String)
    (insertErr : Nat → Option String) :
    ((createBookingReserve db now req ci dep ret freshId insertErr).2).flights =
      (reservedState db now req ci dep ret).flights := by
  unfold createBookingReserve
  cases headerReturnId req.isRoundTrip ret with
  | error e => rfl
  | ok retId =>
    dsimp only
    rcases hid : insertDetails
      { reservedState db now req ci dep ret with bookings :=
          (reservedState db now req ci dep ret).bookings ++
            [bookingRowOf db now req ci dep ret retId freshId] }
      now freshId req.passengers 0 insertErr req.selectedServices
      (req.totalAmount = none) with ⟨r, db5⟩
    have hfl : db5.flights = (reservedState db now req ci dep ret).flights := by
      have h := (insertDetails_frame now freshId insertErr req.selectedServices
        (req.totalAmount = none) req.passengers 0
        { reservedState db now req ci dep ret with bookings :=
            (reservedState db now req ci dep ret).bookings ++
              [bookingRowOf db now req ci dep ret retId freshId] }).1
      rw [hid] at h
      exact h
    cases r with
    | some e => exact hfl
    | none =>
      dsimp only
      rw [(insertPayment_frame db5 freshId req.paymentMethod req.transactionInfo).1]
      exact hfl

/-- The booking handler leaves the flights table either untouched (any
rejected path) or equal to the reserve-stage result. -/
theorem createBooking_flights_cases (db : DB) (now : Int) (req : BookingRequest)
    (freshId : String) (insertErr : Nat → Option String) :
    ((createBooking db now req freshId insertErr).2).flights = db.flights ∨
    ∃ ci dep ret,
      ((createBooking db now req freshId insertErr).2).flights =
        (reservedState db now req ci dep ret).flights := by
  unfold createBooking
  by_cases hmf : missingFieldsOf req ≠ []
  · rw [if_pos hmf]
    exact Or.inl rfl
  · rw [if_neg hmf]
    cases hdref : req.departureFlightId with
    | none =>
      cases hci : req.customerInfo with
      | none => exact Or.inl rfl
      | some ci => exact Or.inl rfl
    | some dref =>
      cases hci : req.customerInfo with
      | none => exact Or.inl rfl
      | some ci =>
        dsimp only
        cases hdep : findFlight db dref with
        | none => exact Or.inl rfl
        | some dep =>
          dsimp only
          cases hret : resolveReturn db req with
          | error e => exact Or.inl rfl
          | ok ret =>
            dsimp only
            unfold createBookingChecked
            by_cases hs1 : seatsOf dep (seatClassOf ci) < (req.passengers.length : Int)
            · rw [if_pos hs1]
              exact Or.inl rfl
            · rw [if_neg hs1]
              cases hcr : checkReturnSeats req.isRoundTrip ret (seatClassOf ci)
                  (req.passengers.length : Int) with
              | some e => exact Or.inl rfl
              | none =>
                exact Or.inr ⟨ci, dep, ret,
                  createBookingReserve_flights db now req ci dep ret freshId insertErr⟩

/-- The restore stage preserves the aggregate-seats invariant. -/
theorem restoreStage_aggInv (db1 : DB) (bookingId : String) (cur : BookingRow) (ps : String)
    (h : ∀ f ∈ db1.flights, aggInv f) :
    ∀ f ∈ (restoreStage db1 bookingId cur ps).flights, aggInv f := by
  unfold restoreStage
  by_cases hc : (ps = "cancelled" ∨ ps = "refunded") ∧
      (cur.payment_status = "paid" ∨ cur.payment_status = "unpaid")
  · rw [if_pos hc]
    dsimp only
    have h1 := updateSeats_aggInv db1 cur.departure_flight_id
      ((jsStr cur.travel_class).getD "ECONOMY")
      ((db1.booking_details.filter (fun d => d.booking_id == bookingId)).length : Int) h
    by_cases h2 : cur.is_round_trip = 1
    · simp only [if_pos h2]
      cases cur.return_flight_id with
      | none => exact h1
      | some rid => exact updateSeats_aggInv _ _ _ _ h1
    · simp only [if_neg h2]
      exact h1
  · rw [if_neg hc]
    exact h

/-- C8: assuming every flight satisfies the aggregate-seats invariant, it
still holds for every flight after any CreateBooking call (whose reserve path
decrements a class column and the aggregate by the same amount) and after any
UpdatePaymentStatus call (whose release path increments both by the same
amount). -/
theorem c8_aggregate_invariant
    (db : DB) (now : Int) (req : BookingRequest) (freshId : String)
    (insertErr : Nat → Option String) (bookingId : String) (paymentStatus : Option String)
    (hinv : ∀ f ∈ db.flights, aggInv f) :
    (∀ f ∈ ((createBooking db now req freshId insertErr).2).flights, aggInv f) ∧
    (∀ f ∈ ((updatePaymentStatus db bookingId paymentStatus).2).flights, aggInv f) := by
  constructor
  · rcases createBooking_flights_cases db now req freshId insertErr with h | ⟨ci, dep, ret, h⟩
    · rw [h]; exact hinv
    · rw [h]; exact reservedState_aggInv db now req ci dep ret hinv
  · unfold updatePaymentStatus
    cases jsStr paymentStatus with
    | none => exact hinv
    | some ps =>
      dsimp only
      cases hfind : db.bookings.find? (fun b => b.booking_id == bookingId) with
      | none => exact hinv
      | some cur =>
        dsimp only
        have hpromo : (promoStage db cur ps).flights = db.flights :=
          (promoStage_frame db cur ps).1
        have hres : ∀ f ∈ (restoreStage (promoStage db cur ps) bookingId cur ps).flights,
            aggInv f := by
          apply restoreStage_aggInv
          rw [hpromo]
          exact hinv
        by_cases hch : ((restoreStage (promoStage db cur ps) bookingId cur ps).bookings.filter
            (fun b => b.booking_id == bookingId)).length = 0
        · rw [if_pos hch]
          exact hres
        · rw [if_neg hch]
          exact hres

/-- Witness for C8: a one-way booking on the fixture database keeps the
invariant on every flight row. -/
theorem c8_witness :
    (∀ f ∈ wDB.flights, aggInv f) ∧
    ((∀ f ∈ ((createBooking wDB 0 wReqBase "BKC8" (fun _ => none)).2).flights, aggInv f) ∧
     (∀ f ∈ ((updatePaymentStatus wDB "BKC8" (some "paid")).2).flights, aggInv f)) :=
  ⟨by decide,
   c8_aggregate_invariant wDB 0 wReqBase "BKC8" (fun _ => none) "BKC8" (some "paid")
     (by decide)⟩

/-- With a caller-supplied total the amount step is the identity on the
database: the promo branch (lookup and used-count increment) never runs. -/
theorem computeAmount_explicit (db : DB) (now : Int) (req : BookingRequest) (dep : Flight)
    (ret : Option Flight) (cls : String) (t : ℚ) (ht : req.totalAmount = some t) :
    computeAmount db now req dep ret cls = (t, db) := by
  unfold computeAmount
  rw [ht]

/-- With a caller-supplied total the reserve stage leaves promotions
untouched. -/
theorem createBookingReserve_promotions_explicit (db : DB) (now : Int) (req : BookingRequest)
    (ci : CustomerInfo) (dep : Flight) (ret : Option Flight) (freshId : String)
    (insertErr : Nat → Option String) (t : ℚ) (ht : req.totalAmount = some t) :
    ((createBookingReserve db now req ci dep ret freshId insertErr).2).promotions =
      db.promotions := by
  have hrs : (reservedState db now req ci dep ret).promotions = db.promotions := by
    rw [(reservedState_frame db now req ci dep ret).2.2.2,
      computeAmount_explicit db now req dep ret (seatClassOf ci) t ht]
  unfold createBookingReserve
  cases headerReturnId req.isRoundTrip ret with
  | error e => exact hrs
  | ok retId =>
    dsimp only
    rcases hid : insertDetails
      { reservedState db now req ci dep ret with bookings :=
          (reservedState db now req ci dep ret).bookings ++
            [bookingRowOf db now req ci dep ret retId freshId] }
      now freshId req.passengers 0 insertErr req.selectedServices
      (req.totalAmount = none) with ⟨r, db5⟩
    have hpm : db5.promotions = db.promotions := by
      have h := (insertDetails_frame now freshId insertErr req.selectedServices
        (req.totalAmount = none) req.passengers 0
        { reservedState db now req ci dep ret with bookings :=
            (reservedState db now req ci dep ret).bookings ++
              [bookingRowOf db now req ci dep ret retId freshId] }).2.2
      rw [hid] at h
      rw [h]
      exact hrs
    cases r with
    | some e => exact hpm
    | none =>
      dsimp only
      rw [(insertPayment_frame db5 freshId req.paymentMethod req.transactionInfo).2.2.2]
      exact hpm

/-- C10: with a caller-supplied total, CreateBooking leaves the promotions
table unchanged on every path - no lookup side effect and no used-count
increment occurs at creation - even when a valid promo code is supplied; on
the successful path the header row is nevertheless written with the supplied
promo-code string. -/
theorem c10_explicit_total_promotions_frame
    (db : DB) (now : Int) (req : BookingRequest) (freshId : String)
    (insertErr : Nat → Option String) (t : ℚ)
    (ht : req.totalAmount = some t) :
    ((createBooking db now req freshId insertErr).2).promotions = db.promotions ∧
    (∀ dref ci dep ret retId,
      missingFieldsOf req = [] →
      req.departureFlightId = some dref →
      req.customerInfo = some ci →
      findFlight db dref = some dep →
      resolveReturn db req = .ok ret →
      ¬ seatsOf dep (seatClassOf ci) < (req.passengers.length : Int) →
      checkReturnSeats req.isRoundTrip ret (seatClassOf ci)
        (req.passengers.length : Int) = none →
      headerReturnId req.isRoundTrip ret = .ok retId →
      (∀ i, insertErr i = none) →
      (∀ p ∈ req.passengers, jsStr p.fullName ≠ none) →
      bookingRowOf db now req ci dep ret retId freshId ∈
        ((createBooking db now req freshId insertErr).2).bookings ∧
      (bookingRowOf db now req ci dep ret retId freshId).promo_code = jsStr req.promoCode) := by
  constructor
  · unfold createBooking
    by_cases hmf : missingFieldsOf req ≠ []
    · rw [if_pos hmf]
    · rw [if_neg hmf]
      cases hdref : req.departureFlightId with
      | none =>
        cases hci : req.customerInfo with
        | none => rfl
        | some ci => rfl
      | some dref =>
        cases hci : req.customerInfo with
        | none => rfl
        | some ci =>
          dsimp only
          cases hdep : findFlight db dref with
          | none => rfl
          | some dep =>
            dsimp only
            cases hret : resolveReturn db req with
            | error e => rfl
            | ok ret =>
              dsimp only
              unfold createBookingChecked
              by_cases hs1 : seatsOf dep (seatClassOf ci) < (req.passengers.length : Int)
              · rw [if_pos hs1]
              · rw [if_neg hs1]
                cases hcr : checkReturnSeats req.isRoundTrip ret (seatClassOf ci)
                    (req.passengers.length : Int) with
                | some e => rfl
                | none =>
                  exact createBookingReserve_promotions_explicit db now req ci dep ret
                    freshId insertErr t ht
  · intro dref ci dep ret retId hm hdref hci hdep hret hs1 hs2 hok hins hnames
    refine ⟨?_, rfl⟩
    rw [createBooking_path db now req freshId insertErr dref ci dep ret hm hdref hci hdep hret,
      createBookingChecked_pass db now req ci dep ret freshId insertErr hs1 hs2,
      createBookingReserve_success db now req ci dep ret freshId insertErr retId hok hins hnames]
    dsimp only
    rw [(insertPayment_frame _ _ _ _).2.1]
    exact List.mem_append_right _ (List.mem_singleton.mpr rfl)

/-- Witness for C10: an explicit total of 999 with the valid promo code
SALE20 attached leaves the promotions table untouched. -/
theorem c10_witness :
    ({ c4Req with totalAmount := some 999 } : BookingRequest).totalAmount = some 999 ∧
    (((createBooking wDB 50 { c4Req with totalAmount := some 999 } "BKC10"
        (fun _ => none)).2).promotions = wDB.promotions ∧
     (∀ dref ci dep ret retId,
       missingFieldsOf { c4Req with totalAmount := some 999 } = [] →
       ({ c4Req with totalAmount := some 999 } : BookingRequest).departureFlightId = some dref →
       ({ c4Req with totalAmount := some 999 } : BookingRequest).customerInfo = some ci →
       findFlight wDB dref = some dep →
       resolveReturn wDB { c4Req with totalAmount := some 999 } = .ok ret →
       ¬ seatsOf dep (seatClassOf ci) <
         (({ c4Req with totalAmount := some 999 } : BookingRequest).passengers.length : Int) →
       checkReturnSeats ({ c4Req with totalAmount := some 999 } : BookingRequest).isRoundTrip
         ret (seatClassOf ci)
         (({ c4Req with totalAmount := some 999 } : BookingRequest).passengers.length : Int) =
           none →
       headerReturnId ({ c4Req with totalAmount := some 999 } : BookingRequest).isRoundTrip
         ret = .ok retId →
       (∀ i : Nat, (fun _ : Nat => (none : Option String)) i = none) →
       (∀ p ∈ ({ c4Req with totalAmount := some 999 } : BookingRequest).passengers,
         jsStr p.fullName ≠ none) →
       bookingRowOf wDB 50 { c4Req with totalAmount := some 999 } ci dep ret retId "BKC10" ∈
         ((createBooking wDB 50 { c4Req with totalAmount := some 999 } "BKC10"
           (fun _ => none)).2).bookings ∧
       (bookingRowOf wDB 50 { c4Req with totalAmount := some 999 } ci dep ret retId
         "BKC10").promo_code =
           jsStr ({ c4Req with totalAmount := some 999 } : BookingRequest).promoCode)) :=
  ⟨by decide,
   c10_explicit_total_promotions_frame wDB 50 { c4Req with totalAmount := some 999 } "BKC10"
     (fun _ => none) 999 (by decide)⟩

end Vemb
